import Mathlib

/-!
Verification of the compilation-orchestration core of the
`iree_docker_integration` package: a shallow embedding of
`config_validator.py`, `file_handler.py` and the result-building part of
`docker_manager.py`, together with theorems settling the testable
properties of the specification.

Modelling conventions:
* Python dictionaries holding a compilation request are embedded as
  structures whose fields are `Option`-valued; `none` means the key is
  absent from the dictionary.  The free-form `metadata` block is omitted:
  no validation or normalization step reads it.
* Python exceptions escaping a function are embedded as the `Except.error`
  case of an `Except String` result.
* `str.isalnum` is modelled on ASCII alphanumerics; every string appearing
  in the claims is ASCII.
* `float(...)` applied to deployment-target strings is modelled as exact
  decimal parsing into `Rat`; on the plain decimal literals the code
  compares, rational and floating comparison agree.
-/

namespace IreeDocker

/-- Boolean list prefix test, used to embed `str.startswith`. -/
def listIsPref : List Char → List Char → Bool
  | [], _ => true
  | _ :: _, [] => false
  | a :: as, b :: bs => a = b && listIsPref as bs

/-- Embedding of Python `s.startswith(p)`. -/
def pyStartsWith (s p : String) : Bool := listIsPref p.toList s.toList

/-- Embedding of Python `s.endswith(p)`. -/
def pyEndsWith (s p : String) : Bool := listIsPref p.toList.reverse s.toList.reverse

/-- Embedding of `os.path.basename`: the part after the last slash. -/
def basename (s : String) : String := (s.splitOn "/").getLastD s

/-- First-`none`-then-default choice on options, the shape of
`config.get(key, default)` after an optional defaulting pass. -/
def orD {α : Type} (a b : Option α) : Option α :=
  match a with
  | none => b
  | some x => some x

/-- Exact decimal parsing into `Rat`; embeds `float(...)` on the plain
decimal literals (`"15.0"`, `"12"`, ...) that deployment targets use.
Any other shape is treated as a parse failure (a raised `ValueError`). -/
def parseFloat (s : String) : Option Rat :=
  match s.splitOn "." with
  | [a] =>
    if a ≠ "" && a.toList.all Char.isDigit then
      (a.toNat?).map (fun n => (n : Rat))
    else none
  | [a, b] =>
    if a ≠ "" && b ≠ "" && a.toList.all Char.isDigit && b.toList.all Char.isDigit then
      match a.toNat?, b.toNat? with
      | some x, some y => some ((x : Rat) + (y : Rat) / ((10 : Rat) ^ b.length))
      | _, _ => none
    else none
  | _ => none

/-! ## Secure file handler (`file_handler.py`, class `SecureFileHandler`) -/

/-- ASCII reading of Python `c.isalnum()`. -/
def pyIsAlnum (c : Char) : Bool := c.isAlpha || c.isDigit

/-- Embedding of `SecureFileHandler.sanitize_filename` (lines 68-81):
keep characters that are alphanumeric or in `._-`, force a non-empty
non-dot-leading result, truncate to 100 characters. -/
def sanitize_filename (filename : String) : String :=
  let s := String.mk (filename.toList.filter (fun c => pyIsAlnum c || c = '.' || c = '_' || c = '-'))
  let s := if s = "" || pyStartsWith s "." then "file_" ++ s else s
  if s.length > 100 then String.mk (s.toList.take 100) else s

/-- Split a list of characters at its last dot, returning stem and
suffix characters (suffix includes the dot); `none` when no dot occurs. -/
def lastDotSplit : List Char → Option (List Char × List Char)
  | [] => none
  | c :: rest =>
    match lastDotSplit rest with
    | some (s, e) => some (c :: s, e)
    | none => if c = '.' then some ([], '.' :: rest) else none

/-- Embedding of `pathlib` `Path.stem` / `Path.suffix` on a file name:
the split happens at the last dot provided it is neither the leading nor
the trailing character; otherwise the suffix is empty. -/
def splitExt (name : String) : String × String :=
  match lastDotSplit name.toList with
  | some (s, e) => if s ≠ [] && e.length > 1 then (String.mk s, String.mk e) else (name, "")
  | none => (name, "")

/-- The collision-avoidance loop of `prepare_input_file` (lines 110-117):
starting from counter `k`, return the first `stem_k+suffix` candidate not
already staged.  `fuel` bounds the search; the scenarios proved below
terminate within it. -/
def freeNameGo (existing : List String) (stem sfx : String) : Nat → Nat → String
  | 0, k => stem ++ "_" ++ toString k ++ sfx
  | n + 1, k =>
    let cand := stem ++ "_" ++ toString k ++ sfx
    if existing.contains cand then freeNameGo existing stem sfx n (k + 1) else cand

/-- Collision avoidance for a target name `orig` whose `Path` stem and
suffix are `stem` and `sfx`: keep `orig` when it is not staged yet,
otherwise search `stem_1+sfx`, `stem_2+sfx`, ... -/
def freeName (existing : List String) (stem sfx orig : String) : String :=
  if existing.contains orig then freeNameGo existing stem sfx (existing.length + 1) 1
  else orig

/-- Name selection of `SecureFileHandler.prepare_input_file` (lines
83-124): sanitize the requested (or source) file name, force a `.mlir`
extension on an explicitly requested name, then avoid collisions with the
already staged names. -/
def prepare_input_name (existing : List String) (sourceName : String)
    (targetFilename : Option String) : String :=
  let target_name :=
    match targetFilename with
    | some t =>
      let n := sanitize_filename t
      if pyEndsWith n ".mlir" then n else n ++ ".mlir"
    | none => sanitize_filename sourceName
  freeName existing (splitExt target_name).1 (splitExt target_name).2 target_name

/-- Name selection of `SecureFileHandler.prepare_output_directory`
(lines 126-151): sanitize the requested name (default `model.vmfb`) and
append `.vmfb` when no known output extension is present. -/
def prepare_output_name (output_filename : Option String) : String :=
  let output_name :=
    match output_filename with
    | some f => sanitize_filename f
    | none => "model.vmfb"
  if pyEndsWith output_name ".vmfb" || pyEndsWith output_name ".so" ||
      pyEndsWith output_name ".dylib" then
    output_name
  else output_name ++ ".vmfb"

/-- Observable state of a candidate output file: existence, regularity,
byte size, file name, and the first `min size 16` bytes returned by
`f.read(16)`. -/
structure FsFile where
  fsExists : Bool
  isFile : Bool
  size : Nat
  name : String
  header16 : List Nat
  deriving DecidableEq

/-- Embedding of `SecureFileHandler.verify_output_file` (lines 198-233). -/
def verify_output_file (f : FsFile) (expected_format : String) : Bool × String :=
  if !f.fsExists then (false, "Output file was not created")
  else if !f.isFile then (false, "Output path is not a file")
  else if f.size = 0 then (false, "Output file is empty")
  else if !pyEndsWith f.name ("." ++ expected_format) then
    (false, "Output file extension does not match format: expected ." ++ expected_format)
  else if expected_format = "vmfb" then
    if f.header16.length < 4 then (false, "Output file too small to be valid VMFB")
    else (true, "Output file valid: " ++ toString f.size ++ " bytes")
  else (true, "Output file valid: " ++ toString f.size ++ " bytes")

/-! ## Container run result (`docker_manager.py`, `DockerManager.run_compilation`) -/

/-- The result dictionary built by `run_compilation` (lines 303-352). -/
structure ExecResult where
  success : Bool
  compilation_time : String
  logs : String
  input_file : String
  output_file : Option String
  output_info : String
  output_size : Option String
  output_hash : Option String
  error : Option String
  warning : Option String
  validation_result : Option String
  latency_ms : Option Rat
  throughput_ops_per_sec : Option Rat
  deriving DecidableEq

/-- One iteration of the marker-parsing loop (lines 329-339): fixed-prefix
markers update the corresponding result fields; a malformed benchmark
number raises `ValueError`. -/
def applyMarker (r : ExecResult) (line : String) : Except String ExecResult :=
  if pyStartsWith line "VALIDATION_RESULT:" then
    .ok { r with validation_result := some ((line.drop 18).trim) }
  else if pyStartsWith line "BENCHMARK_LATENCY:" then
    match parseFloat ((line.drop 18).trim) with
    | none => .error "ValueError: could not convert string to float"
    | some q => .ok { r with latency_ms := some q }
  else if pyStartsWith line "BENCHMARK_THROUGHPUT:" then
    match parseFloat ((line.drop 21).trim) with
    | none => .error "ValueError: could not convert string to float"
    | some q => .ok { r with throughput_ops_per_sec := some q }
  else if pyStartsWith line "ERROR:" then
    .ok { r with error := some ((line.drop 6).trim) }
  else .ok r

/-- The result record built right after output verification (lines
311-327): `success` is the verification verdict, and the error field is
set from the verification detail on failure. -/
def runPostRunBase (ov : Bool) (info : String) (lines : List String)
    (ctime inPath outPath sizeFormatted hash : String) : ExecResult :=
  { success := ov
    compilation_time := ctime
    logs := String.intercalate "\x0a" lines
    input_file := inPath
    output_file := if ov then some outPath else none
    output_info := info
    output_size := if ov then some sizeFormatted else none
    output_hash := if ov then some hash else none
    error := if ov then none else some ("Output validation failed: " ++ info)
    warning := none
    validation_result := none
    latency_ms := none
    throughput_ops_per_sec := none }

/-- The failure record produced by the exception handler that catches an
error raised inside the file-handling block (lines 354-359). -/
def runPostRunFail (e : String) : ExecResult :=
  { success := false
    compilation_time := ""
    logs := e
    input_file := ""
    output_file := none
    output_info := ""
    output_size := none
    output_hash := none
    error := some ("File preparation error: " ++ e)
    warning := none
    validation_result := none
    latency_ms := none
    throughput_ops_per_sec := none }

/-- The copy-to-destination step (lines 341-350): only runs on a verified
output with a distinct caller destination; a copy failure becomes a
warning. -/
def runPostRunCopy (ov : Bool) (targetPath : Option String) (outPath : String)
    (copyOk : Bool) (r : ExecResult) : ExecResult :=
  if ov then
    match targetPath with
    | some tp =>
      if tp ≠ outPath then
        if copyOk then { r with output_file := some tp }
        else { r with warning := some "Failed to copy output to target location" }
      else r
    | none => r
  else r

/-- Result construction after the container has run (lines 300-352 of
`run_compilation`): verify the produced artifact, build the result record
with `success := output_valid`, fold the marker-parsing loop over the
captured output lines (an exception there is caught by the surrounding
handler and yields a failure record), then optionally copy the artifact to
the caller-specified destination. -/
def runPostRun (outFile : FsFile) (fmt : String) (lines : List String)
    (ctime : String) (inPath outPath : String) (sizeFormatted hash : String)
    (targetPath : Option String) (copyOk : Bool) : ExecResult :=
  let ov := (verify_output_file outFile fmt).1
  let info := (verify_output_file outFile fmt).2
  match lines.foldlM applyMarker
      (runPostRunBase ov info lines ctime inPath outPath sizeFormatted hash) with
  | .error e => runPostRunFail e
  | .ok r => runPostRunCopy ov targetPath outPath copyOk r

/-! ## Configuration data model (`config_validator.py`)

Raw dictionaries: `Option`-valued fields, `none` meaning the key is
absent. -/

/-- Raw `target_specific.cuda` sub-dictionary (`CudaConfig`). -/
@[ext]
structure RawCudaConfig where
  compute_capability : Option (List String)
  max_threads_per_block : Option Int
  use_fast_math : Option Bool
  deriving DecidableEq

/-- Raw `target_specific.cpu` sub-dictionary (`CpuConfig`). -/
@[ext]
structure RawCpuConfig where
  target_cpu : Option String
  vector_extensions : Option (List String)
  num_threads : Option Int
  deriving DecidableEq

/-- Raw `target_specific.vulkan` sub-dictionary (`VulkanConfig`). -/
@[ext]
structure RawVulkanConfig where
  spirv_version : Option String
  vulkan_version : Option String
  deriving DecidableEq

/-- Raw `target_specific.metal` sub-dictionary (`MetalConfig`). -/
@[ext]
structure RawMetalConfig where
  metal_version : Option String
  ios_deployment_target : Option String
  macos_deployment_target : Option String
  deriving DecidableEq

/-- Raw `target_specific` dictionary (`TargetSpecificConfig`). -/
@[ext]
structure RawTargetSpecific where
  cuda : Option RawCudaConfig
  cpu : Option RawCpuConfig
  vulkan : Option RawVulkanConfig
  metal : Option RawMetalConfig
  deriving DecidableEq

/-- Raw `compilation_options` dictionary (`CompilationOptions`). -/
@[ext]
structure RawCompilationOptions where
  enable_assertions : Option Bool
  strip_debug_info : Option Bool
  enable_profiling : Option Bool
  memory_planning : Option String
  deriving DecidableEq

/-- A raw compilation-request dictionary (`IreeCompilationConfig` input). -/
@[ext]
structure RawConfig where
  input_file : Option String
  output_file : Option String
  target : Option String
  optimization_level : Option String
  target_features : Option (List String)
  output_format : Option String
  validation : Option Bool
  benchmark : Option Bool
  verbose : Option Bool
  compilation_options : Option RawCompilationOptions
  target_specific : Option RawTargetSpecific
  deriving DecidableEq

/-! Validated model, the shape of `IreeCompilationConfig(**config).dict()`:
every key present, defaults applied, sub-records still optional. -/

/-- Dumped `CudaConfig`. -/
structure CudaConfigM where
  compute_capability : List String
  max_threads_per_block : Int
  use_fast_math : Bool
  deriving DecidableEq

/-- Dumped `CpuConfig`. -/
structure CpuConfigM where
  target_cpu : String
  vector_extensions : List String
  num_threads : Int
  deriving DecidableEq

/-- Dumped `VulkanConfig`. -/
structure VulkanConfigM where
  spirv_version : String
  vulkan_version : String
  deriving DecidableEq

/-- Dumped `MetalConfig`. -/
structure MetalConfigM where
  metal_version : String
  ios_deployment_target : Option String
  macos_deployment_target : Option String
  deriving DecidableEq

/-- Dumped `TargetSpecificConfig`: all four keys present, each possibly
`None`. -/
structure TargetSpecificM where
  cuda : Option CudaConfigM
  cpu : Option CpuConfigM
  vulkan : Option VulkanConfigM
  metal : Option MetalConfigM
  deriving DecidableEq

/-- Dumped `CompilationOptions`. -/
structure CompilationOptionsM where
  enable_assertions : Bool
  strip_debug_info : Bool
  enable_profiling : Bool
  memory_planning : String
  deriving DecidableEq

/-- Dumped `IreeCompilationConfig`. -/
structure IreeCompilationConfigM where
  input_file : String
  output_file : String
  target : String
  optimization_level : String
  target_features : List String
  output_format : String
  validation : Bool
  benchmark : Bool
  verbose : Bool
  compilation_options : CompilationOptionsM
  target_specific : TargetSpecificM
  deriving DecidableEq

/-! ### Pydantic model construction -/

/-- `CudaConfig.validate_compute_capability`: `sm_` followed by a
non-empty digit string. -/
def smFormatOk (cap : String) : Bool :=
  pyStartsWith cap "sm_" && decide ((cap.drop 3) ≠ "") && (cap.drop 3).toList.all Char.isDigit

/-- The fixed whitelist of `CpuConfig.validate_vector_extensions`. -/
def validExtensions : List String :=
  ["sse", "sse2", "sse3", "ssse3", "sse4.1", "sse4.2",
   "avx", "avx2", "avx512", "neon", "fma", "f16c", "bmi", "bmi2"]

def validSpirvVersions : List String := ["1.0", "1.1", "1.2", "1.3", "1.4", "1.5", "1.6"]

def validVulkanVersions : List String := ["1.0", "1.1", "1.2", "1.3"]

def validMetalVersions : List String := ["2.0", "2.1", "2.2", "2.3", "2.4", "3.0"]

def validMemoryPlanning : List String := ["default", "aggressive", "conservative"]

def emptyRawCompilationOptions : RawCompilationOptions := ⟨none, none, none, none⟩

def emptyRawTargetSpecific : RawTargetSpecific := ⟨none, none, none, none⟩

/-- Field errors of the `input_file` validator. -/
def inputFileErrs : Option String → List String
  | none => ["Validation error at input_file: Field required"]
  | some v =>
    if pyStartsWith v "/input/" && pyEndsWith v ".mlir" then []
    else ["Validation error at input_file: Input file must be in /input/ directory and have .mlir extension"]

/-- Field errors of the `output_file` validator. -/
def outputFileErrs (o : Option String) : List String :=
  if pyStartsWith (o.getD "/output/model.vmfb") "/output/" then []
  else ["Validation error at output_file: Output file must be in /output/ directory"]

/-- Enum-membership check shared by the enum-typed fields. -/
def enumErrs (v : String) (allowed : List String) (msg : String) : List String :=
  if allowed.contains v then [] else [msg]

def targetErrs (o : Option String) : List String :=
  enumErrs (o.getD "cuda") ["cuda", "cpu", "vulkan", "metal"]
    "Validation error at target: Input should be cuda, cpu, vulkan or metal"

def optLevelErrs (o : Option String) : List String :=
  enumErrs (o.getD "O3") ["O0", "O1", "O2", "O3"]
    "Validation error at optimization_level: Input should be O0, O1, O2 or O3"

def outputFormatErrs (o : Option String) : List String :=
  enumErrs (o.getD "vmfb") ["vmfb", "so", "dylib"]
    "Validation error at output_format: Input should be vmfb, so or dylib"

/-- Field errors of the `CudaConfig` sub-model (compute-capability format,
`max_threads_per_block` bounds and warp-size multiple). -/
def cudaSubErrs (c : RawCudaConfig) : List String :=
  (match (c.compute_capability.getD []).find? (fun cap => !smFormatOk cap) with
   | some cap =>
     ["Validation error at target_specific -> cuda -> compute_capability: Invalid compute capability format: " ++ cap]
   | none => []) ++
  (let mt := c.max_threads_per_block.getD 256
   if mt < 32 then
     ["Validation error at target_specific -> cuda -> max_threads_per_block: Input should be greater than or equal to 32"]
   else if 1024 < mt then
     ["Validation error at target_specific -> cuda -> max_threads_per_block: Input should be less than or equal to 1024"]
   else if mt % 32 ≠ 0 then
     ["Validation error at target_specific -> cuda -> max_threads_per_block: max_threads_per_block must be a multiple of 32 (warp size)"]
   else [])

/-- Field errors of the `CpuConfig` sub-model. -/
def cpuSubErrs (c : RawCpuConfig) : List String :=
  (match (c.vector_extensions.getD []).find? (fun ext => !validExtensions.contains ext) with
   | some ext =>
     ["Validation error at target_specific -> cpu -> vector_extensions: Invalid vector extension: " ++ ext]
   | none => []) ++
  (let nt := c.num_threads.getD 0
   if nt < 0 then
     ["Validation error at target_specific -> cpu -> num_threads: Input should be greater than or equal to 0"]
   else if 128 < nt then
     ["Validation error at target_specific -> cpu -> num_threads: Input should be less than or equal to 128"]
   else [])

/-- Field errors of the `VulkanConfig` sub-model. -/
def vulkanSubErrs (c : RawVulkanConfig) : List String :=
  enumErrs (c.spirv_version.getD "1.3") validSpirvVersions
    "Validation error at target_specific -> vulkan -> spirv_version: Invalid SPIR-V version" ++
  enumErrs (c.vulkan_version.getD "1.1") validVulkanVersions
    "Validation error at target_specific -> vulkan -> vulkan_version: Invalid Vulkan version"

/-- Field errors of the `MetalConfig` sub-model. -/
def metalSubErrs (c : RawMetalConfig) : List String :=
  enumErrs (c.metal_version.getD "2.4") validMetalVersions
    "Validation error at target_specific -> metal -> metal_version: Invalid Metal version"

/-- Field errors of the `CompilationOptions` sub-model. -/
def compOptsErrs (o : Option RawCompilationOptions) : List String :=
  enumErrs ((o.getD emptyRawCompilationOptions).memory_planning.getD "default") validMemoryPlanning
    "Validation error at compilation_options -> memory_planning: Invalid memory planning strategy"

/-- Field errors of the `TargetSpecificConfig` sub-model. -/
def targetSpecificErrs (o : Option RawTargetSpecific) : List String :=
  let ts := o.getD emptyRawTargetSpecific
  (match ts.cuda with | some c => cudaSubErrs c | none => []) ++
  (match ts.cpu with | some c => cpuSubErrs c | none => []) ++
  (match ts.vulkan with | some c => vulkanSubErrs c | none => []) ++
  (match ts.metal with | some c => metalSubErrs c | none => [])

/-- All field-level (per-field validator) errors collected by pydantic in
field-declaration order. -/
def fieldErrors (raw : RawConfig) : List String :=
  inputFileErrs raw.input_file ++
  outputFileErrs raw.output_file ++
  targetErrs raw.target ++
  optLevelErrs raw.optimization_level ++
  outputFormatErrs raw.output_format ++
  compOptsErrs raw.compilation_options ++
  targetSpecificErrs raw.target_specific

def buildCudaM (c : RawCudaConfig) : CudaConfigM :=
  ⟨c.compute_capability.getD [], c.max_threads_per_block.getD 256, c.use_fast_math.getD false⟩

def buildCpuM (c : RawCpuConfig) : CpuConfigM :=
  ⟨c.target_cpu.getD "generic", c.vector_extensions.getD [], c.num_threads.getD 0⟩

def buildVulkanM (c : RawVulkanConfig) : VulkanConfigM :=
  ⟨c.spirv_version.getD "1.3", c.vulkan_version.getD "1.1"⟩

def buildMetalM (c : RawMetalConfig) : MetalConfigM :=
  ⟨c.metal_version.getD "2.4", c.ios_deployment_target, c.macos_deployment_target⟩

def buildTS (ts : RawTargetSpecific) : TargetSpecificM :=
  ⟨ts.cuda.map buildCudaM, ts.cpu.map buildCpuM, ts.vulkan.map buildVulkanM, ts.metal.map buildMetalM⟩

def buildCO (o : RawCompilationOptions) : CompilationOptionsM :=
  ⟨o.enable_assertions.getD false, o.strip_debug_info.getD true,
   o.enable_profiling.getD false, o.memory_planning.getD "default"⟩

/-- The dumped model, all declared defaults applied (meaningful when
`fieldErrors raw = []`). -/
def buildM (raw : RawConfig) : IreeCompilationConfigM :=
  { input_file := raw.input_file.getD ""
    output_file := raw.output_file.getD "/output/model.vmfb"
    target := raw.target.getD "cuda"
    optimization_level := raw.optimization_level.getD "O3"
    target_features := raw.target_features.getD []
    output_format := raw.output_format.getD "vmfb"
    validation := raw.validation.getD true
    benchmark := raw.benchmark.getD false
    verbose := raw.verbose.getD false
    compilation_options := buildCO (raw.compilation_options.getD emptyRawCompilationOptions)
    target_specific := buildTS (raw.target_specific.getD emptyRawTargetSpecific) }

/-- The two `model_validator(mode=after)` checks of
`IreeCompilationConfig`, run in order only when all field validators
passed: output-extension consistency, then the CUDA `sm_` feature rule. -/
def modelErr (m : IreeCompilationConfigM) : Option String :=
  if !pyEndsWith m.output_file ("." ++ m.output_format) then
    some ("Validation error: Output file extension must match format: ." ++ m.output_format)
  else if m.target = "cuda" then
    (m.target_features.find? (fun f => !pyStartsWith f "sm_")).map
      (fun f => "Validation error: CUDA target features must start with sm_: " ++ f)
  else none

/-- `IreeCompilationConfig(**config)` followed by `.dict()`: either the
collected validation errors or the dumped model. -/
def buildConfig (raw : RawConfig) : Except (List String) IreeCompilationConfigM :=
  if fieldErrors raw = [] then
    match modelErr (buildM raw) with
    | some e => .error [e]
    | none => .ok (buildM raw)
  else .error (fieldErrors raw)

/-! ### Cross-field validation (`ConfigValidator._cross_validate_config`) -/

/-- `_validate_cuda_cross_fields` (lines 334-347): when both lists are
non-empty, every compute capability must appear among the target
features. -/
def validate_cuda_cross_fields (features : List String) (c : CudaConfigM) : List String :=
  if !c.compute_capability.isEmpty && !features.isEmpty then
    (c.compute_capability.filter (fun cap => !features.contains cap)).map
      (fun cap => "Compute capability " ++ cap ++ " not found in target_features")
  else []

/-- `_validate_vulkan_cross_fields` (lines 349-360). -/
def validate_vulkan_cross_fields (c : VulkanConfigM) : List String :=
  if ["1.4", "1.5", "1.6"].contains c.spirv_version && c.vulkan_version = "1.0" then
    ["SPIR-V " ++ c.spirv_version ++ " requires Vulkan 1.1 or higher"]
  else []

/-- One deployment-target check of `_validate_metal_cross_fields`: a
present non-empty target string is parsed with `float(...)` (raising on
failure) and compared against the bound. -/
def metalDepCheck (o : Option String) (bound : Rat) (msg : String) :
    Except String (List String) :=
  match o with
  | some s =>
    if s ≠ "" then
      match parseFloat s with
      | none => .error "ValueError: could not convert string to float"
      | some q => .ok (if q < bound then [msg] else [])
    else .ok []
  | none => .ok []

/-- `_validate_metal_cross_fields` (lines 362-377): for Metal 3.0 the two
deployment targets are checked in order. -/
def validate_metal_cross_fields (c : MetalConfigM) : Except String (List String) :=
  if c.metal_version = "3.0" then
    match metalDepCheck c.ios_deployment_target 15 "Metal 3.0 requires iOS 15.0 or higher" with
    | .error e => .error e
    | .ok e1 =>
      match metalDepCheck c.macos_deployment_target 12 "Metal 3.0 requires macOS 12.0 or higher" with
      | .error e => .error e
      | .ok e2 => .ok (e1 ++ e2)
  else .ok []

/-- `_cross_validate_config` (lines 314-332) on the dumped model.  The
dumped `target_specific` dictionary always carries all four keys, so
`target in target_specific` holds for every valid target; the selected
sub-record is then passed to the per-target helper, which calls `.get` on
it and raises `AttributeError` when it is `None`.  The `cpu` target has no
branch here. -/
def crossValidateConfig (m : IreeCompilationConfigM) : Except String (List String) :=
  if m.target = "cuda" then
    match m.target_specific.cuda with
    | none => .error "AttributeError: NoneType object has no attribute get"
    | some c => .ok (validate_cuda_cross_fields m.target_features c)
  else if m.target = "vulkan" then
    match m.target_specific.vulkan with
    | none => .error "AttributeError: NoneType object has no attribute get"
    | some c => .ok (validate_vulkan_cross_fields c)
  else if m.target = "metal" then
    match m.target_specific.metal with
    | none => .error "AttributeError: NoneType object has no attribute get"
    | some c => validate_metal_cross_fields c
  else .ok []

/-- `ConfigValidator.validate_config` with `use_pydantic=True` (lines
239-267, the default path): pydantic errors are caught and returned as the
error list; an exception escaping the cross-field stage propagates. -/
def validate_config (raw : RawConfig) : Except String (Bool × List String) :=
  match buildConfig raw with
  | .error errs => .ok (false, errs)
  | .ok m =>
    match crossValidateConfig m with
    | .error e => .error e
    | .ok errs => .ok (errs.isEmpty, errs)

/-! ### Additional normalization (`_apply_additional_normalization`) -/

/-- Executable lexicographic comparison of character lists by code point,
the order Python `sorted` uses on strings. -/
def listLexLe : List Char → List Char → Bool
  | [], _ => true
  | _ :: _, [] => false
  | a :: as, b :: bs => if a < b then true else if a = b then listLexLe as bs else false

/-- Lexicographic string comparison. -/
def strLe (a b : String) : Bool := listLexLe a.toList b.toList

/-- The sorting relation of `sorted(...)` on strings. -/
def strLeR (a b : String) : Prop := strLe a b = true

instance : DecidableRel strLeR := fun a b => instDecidableEqBool (strLe a b) true

instance : IsTotal String strLeR := by
  constructor
  intro a b
  show listLexLe a.toList b.toList = true ∨ listLexLe b.toList a.toList = true
  generalize a.toList = x
  generalize b.toList = y
  induction x generalizing y with
  | nil => left; rfl
  | cons a as ih =>
    cases y with
    | nil => right; rfl
    | cons b bs =>
      rcases lt_trichotomy a b with h | h | h
      · left; simp [listLexLe, h]
      · subst h
        rcases ih bs with h2 | h2
        · left; simp [listLexLe, h2]
        · right; simp [listLexLe, h2]
      · right; simp [listLexLe, h]

instance : IsTrans String strLeR := by
  constructor
  intro a b c
  show listLexLe a.toList b.toList = true → listLexLe b.toList c.toList = true →
    listLexLe a.toList c.toList = true
  generalize a.toList = x
  generalize b.toList = y
  generalize c.toList = z
  induction x generalizing y z with
  | nil => intro _ _; rfl
  | cons a as ih =>
    intro hxy hyz
    cases y with
    | nil => simp [listLexLe] at hxy
    | cons b bs =>
      cases z with
      | nil => simp [listLexLe] at hyz
      | cons c cs =>
        simp only [listLexLe] at hxy hyz ⊢
        by_cases hab : a < b
        · by_cases hbc : b < c
          · simp [lt_trans hab hbc]
          · by_cases hbc2 : b = c
            · subst hbc2; simp [hab]
            · simp [hbc, hbc2] at hyz
        · by_cases hab2 : a = b
          · subst hab2
            by_cases hbc : a < c
            · simp [hbc]
            · by_cases hbc2 : a = c
              · subst hbc2
                simp [hab] at hxy ⊢
                simp [hbc] at hyz
                exact ih bs cs hxy hyz
              · simp [hbc, hbc2] at hyz
          · simp [hab, hab2] at hxy

/-- Canonical form of `sorted(list(set(l)))`. -/
def sortedDedup (l : List String) : List String :=
  List.insertionSort strLeR l.dedup

/-- The feature step of `_apply_additional_normalization`: a present,
non-empty feature list is deduplicated and sorted. -/
def aanFeatures (m : IreeCompilationConfigM) : IreeCompilationConfigM :=
  if !m.target_features.isEmpty then
    { m with target_features := sortedDedup m.target_features }
  else m

/-- The output-path step of `_apply_additional_normalization`. -/
def aanOutput (m : IreeCompilationConfigM) : IreeCompilationConfigM :=
  if !pyStartsWith m.output_file "/output/" then
    { m with output_file := "/output/" ++ basename m.output_file }
  else m

/-- The input-path step of `_apply_additional_normalization`. -/
def aanInput (m : IreeCompilationConfigM) : IreeCompilationConfigM :=
  if !pyStartsWith m.input_file "/input/" then
    { m with input_file := "/input/" ++ basename m.input_file }
  else m

/-- `_apply_additional_normalization` (lines 379-398) on the dumped
model: deduplicate and sort a non-empty feature list, then force the fixed
mount prefixes onto the two paths using only the base name, in source
order. -/
def apply_additional_normalization (m : IreeCompilationConfigM) : IreeCompilationConfigM :=
  aanInput (aanOutput (aanFeatures m))

/-- Outcome of `validate_and_normalize`: a normalized model or the error
list. -/
inductive VNResult where
  | ok (cfg : IreeCompilationConfigM)
  | errs (es : List String)
  deriving DecidableEq

/-- `ConfigValidator.validate_and_normalize` (lines 285-312). -/
def validate_and_normalize (raw : RawConfig) : Except String VNResult :=
  match buildConfig raw with
  | .error es => .ok (.errs es)
  | .ok m =>
    match crossValidateConfig m with
    | .error e => .error e
    | .ok [] => .ok (.ok (apply_additional_normalization m))
    | .ok es => .ok (.errs es)

/-! ### Schema-fallback path (`_custom_validations`, lines 400-514) -/

/-- The x86 identifiers rejected for an `arm64` target CPU
(`_validate_cpu_config`, lines 468-482). -/
def x86Extensions : List String :=
  ["sse", "sse2", "sse3", "ssse3", "sse4.1", "sse4.2", "avx", "avx2", "avx512"]

/-- `_validate_cpu_config` on the raw sub-dictionary: one error per x86
identifier when the target CPU is `arm64`. -/
def validate_cpu_config_raw (c : RawCpuConfig) : List String :=
  if c.target_cpu.getD "generic" = "arm64" then
    ((c.vector_extensions.getD []).filter (fun ext => x86Extensions.contains ext)).map
      (fun ext => "x86 vector extension " ++ ext ++ " not compatible with ARM64 target")
  else []

/-- `_validate_cuda_config` on the raw dictionaries (lines 447-466):
compute-capability containment plus the warp-size multiple check. -/
def validate_cuda_config_raw (raw : RawConfig) (c : RawCudaConfig) : List String :=
  (if !(c.compute_capability.getD []).isEmpty && !(raw.target_features.getD []).isEmpty then
    ((c.compute_capability.getD []).filter
        (fun cap => !(raw.target_features.getD []).contains cap)).map
      (fun cap => "Compute capability " ++ cap ++ " not found in target_features")
   else []) ++
  (if (c.max_threads_per_block.getD 256) % 32 ≠ 0 then
    ["max_threads_per_block must be a multiple of 32 (warp size)"]
   else [])

/-- `_validate_vulkan_config` on the raw sub-dictionary (lines 484-496). -/
def validate_vulkan_config_raw (c : RawVulkanConfig) : List String :=
  if ["1.4", "1.5", "1.6"].contains (c.spirv_version.getD "1.3") &&
      c.vulkan_version.getD "1.1" = "1.0" then
    ["SPIR-V " ++ c.spirv_version.getD "1.3" ++ " requires Vulkan 1.1 or higher"]
  else []

/-- `_validate_metal_config` on the raw sub-dictionary (lines 498-514),
with the same `float(...)` exception behaviour as the cross-field
variant. -/
def validate_metal_config_raw (c : RawMetalConfig) : Except String (List String) :=
  validate_metal_cross_fields (buildMetalM c)

/-- The target-specific part of `_custom_validations`: dispatch happens
only when the raw `target_specific` dictionary carries the key for the
selected target. -/
def customTsPart (raw : RawConfig) (target : String) : Except String (List String) :=
  match raw.target_specific with
  | none => .ok []
  | some ts =>
    if target = "cuda" then
      match ts.cuda with
      | some c => .ok (validate_cuda_config_raw raw c)
      | none => .ok []
    else if target = "cpu" then
      match ts.cpu with
      | some c => .ok (validate_cpu_config_raw c)
      | none => .ok []
    else if target = "vulkan" then
      match ts.vulkan with
      | some c => .ok (validate_vulkan_config_raw c)
      | none => .ok []
    else if target = "metal" then
      match ts.metal with
      | some c => validate_metal_config_raw c
      | none => .ok []
    else .ok []

/-- The output-format/extension consistency part of `_custom_validations`
(lines 427-436). -/
def customFmtPart (raw : RawConfig) : List String :=
  let output_format := raw.output_format.getD "vmfb"
  let output_file := raw.output_file.getD "/output/model.vmfb"
  if output_format = "vmfb" && !pyEndsWith output_file ".vmfb" then
    ["Output file extension must match output format (vmfb)"]
  else if output_format = "so" && !pyEndsWith output_file ".so" then
    ["Output file extension must match output format (so)"]
  else if output_format = "dylib" && !pyEndsWith output_file ".dylib" then
    ["Output file extension must match output format (dylib)"]
  else []

/-- The CUDA feature-prefix part of `_custom_validations` (lines
438-443). -/
def customFeatPart (raw : RawConfig) (target : String) : List String :=
  if target = "cuda" then
    (raw.target_features.getD []).filterMap
      (fun f => if pyStartsWith f "sm_" then none
                else some ("CUDA target feature must start with sm_: " ++ f))
  else []

/-- `ConfigValidator._custom_validations` (lines 400-445). -/
def custom_validations (raw : RawConfig) : Except String (List String) :=
  let target := raw.target.getD "cuda"
  match customTsPart raw target with
  | .error e => .error e
  | .ok tsErrs => .ok (tsErrs ++ customFmtPart raw ++ customFeatPart raw target)

/-- `ConfigValidator.validate_config` with `use_pydantic=False` (lines
268-283): the external JSON-schema check is a parameter (`none` meaning it
passed, `some msg` a `jsonschema.ValidationError` message); on success the
custom validations run. -/
def validate_config_schema (schemaCheck : Option String) (raw : RawConfig) :
    Except String (Bool × List String) :=
  match schemaCheck with
  | some msg => .ok (false, ["Schema validation error: " ++ msg])
  | none =>
    match custom_validations raw with
    | .error e => .error e
    | .ok errs => .ok (errs.isEmpty, errs)

/-! ### Normalization (`ConfigValidator.normalize_config`, lines 516-556)

`_apply_defaults` walks the JSON schema document, setting each declared
default for a missing key and recursing into object-typed keys that are
present.  The schema document itself (`config/schema/compile-config-schema.json`)
is external data, so the declared defaults are a parameter: an optional
whole-object or scalar default per key, plus per-field defaults used when
recursing into a present sub-dictionary. -/

/-- Declared defaults of the external JSON schema document. -/
structure SchemaDefaults where
  input_file : Option String
  output_file : Option String
  target : Option String
  optimization_level : Option String
  target_features : Option (List String)
  output_format : Option String
  validation : Option Bool
  benchmark : Option Bool
  verbose : Option Bool
  compilation_options : Option RawCompilationOptions
  compilation_options_fields : RawCompilationOptions
  target_specific : Option RawTargetSpecific
  ts_cuda : Option RawCudaConfig
  cuda_fields : RawCudaConfig
  ts_cpu : Option RawCpuConfig
  cpu_fields : RawCpuConfig
  ts_vulkan : Option RawVulkanConfig
  vulkan_fields : RawVulkanConfig
  ts_metal : Option RawMetalConfig
  metal_fields : RawMetalConfig

def fillCuda (d : RawCudaConfig) (c : RawCudaConfig) : RawCudaConfig :=
  ⟨orD c.compute_capability d.compute_capability,
   orD c.max_threads_per_block d.max_threads_per_block,
   orD c.use_fast_math d.use_fast_math⟩

def fillCpu (d : RawCpuConfig) (c : RawCpuConfig) : RawCpuConfig :=
  ⟨orD c.target_cpu d.target_cpu,
   orD c.vector_extensions d.vector_extensions,
   orD c.num_threads d.num_threads⟩

def fillVulkan (d : RawVulkanConfig) (c : RawVulkanConfig) : RawVulkanConfig :=
  ⟨orD c.spirv_version d.spirv_version, orD c.vulkan_version d.vulkan_version⟩

def fillMetal (d : RawMetalConfig) (c : RawMetalConfig) : RawMetalConfig :=
  ⟨orD c.metal_version d.metal_version,
   orD c.ios_deployment_target d.ios_deployment_target,
   orD c.macos_deployment_target d.macos_deployment_target⟩

def fillCO (d : RawCompilationOptions) (o : RawCompilationOptions) : RawCompilationOptions :=
  ⟨orD o.enable_assertions d.enable_assertions,
   orD o.strip_debug_info d.strip_debug_info,
   orD o.enable_profiling d.enable_profiling,
   orD o.memory_planning d.memory_planning⟩

/-- Recursion of `_apply_defaults` into a present `target_specific`
dictionary: a missing sub-key receives its whole-object default, a present
sub-dictionary is filled field by field. -/
def fillTS (d : SchemaDefaults) (ts : RawTargetSpecific) : RawTargetSpecific :=
  ⟨match ts.cuda with | none => d.ts_cuda | some c => some (fillCuda d.cuda_fields c),
   match ts.cpu with | none => d.ts_cpu | some c => some (fillCpu d.cpu_fields c),
   match ts.vulkan with | none => d.ts_vulkan | some c => some (fillVulkan d.vulkan_fields c),
   match ts.metal with | none => d.ts_metal | some c => some (fillMetal d.metal_fields c)⟩

/-- `ConfigValidator._apply_defaults` (lines 547-556). -/
def applyDefaults (d : SchemaDefaults) (raw : RawConfig) : RawConfig :=
  { input_file := orD raw.input_file d.input_file
    output_file := orD raw.output_file d.output_file
    target := orD raw.target d.target
    optimization_level := orD raw.optimization_level d.optimization_level
    target_features := orD raw.target_features d.target_features
    output_format := orD raw.output_format d.output_format
    validation := orD raw.validation d.validation
    benchmark := orD raw.benchmark d.benchmark
    verbose := orD raw.verbose d.verbose
    compilation_options :=
      match raw.compilation_options with
      | none => d.compilation_options
      | some o => some (fillCO d.compilation_options_fields o)
    target_specific :=
      match raw.target_specific with
      | none => d.target_specific
      | some ts => some (fillTS d ts) }

/-- The duplicate-removal step of `normalize_config`: `list(set(...))` on
a present feature list, modelled as a deterministic deduplication. -/
def dedupStep (c : RawConfig) : RawConfig :=
  { c with target_features := c.target_features.map List.dedup }

/-- The output-path step of `normalize_config`. -/
def outputFixStep (c : RawConfig) : RawConfig :=
  if pyStartsWith (c.output_file.getD "/output/model.vmfb") "/output/" then c
  else { c with output_file := some ("/output/" ++ basename (c.output_file.getD "/output/model.vmfb")) }

/-- The input-path step of `normalize_config`. -/
def inputFixStep (c : RawConfig) : RawConfig :=
  if pyStartsWith (c.input_file.getD "/input/model.mlir") "/input/" then c
  else { c with input_file := some ("/input/" ++ basename (c.input_file.getD "/input/model.mlir")) }

/-- `ConfigValidator.normalize_config` (lines 516-545): schema defaults,
feature deduplication, then the two path rewrites, in source order. -/
def normalize_config (d : SchemaDefaults) (raw : RawConfig) : RawConfig :=
  inputFixStep (outputFixStep (dedupStep (applyDefaults d raw)))

/-- Modelled from the spec: the schema document
`config/schema/compile-config-schema.json` is not among the sources; its
declared defaults are modelled as the defaults the specification declares
for the request fields (§3, §6), which coincide with the model-level
defaults of `IreeCompilationConfig`. -/
def specDefaults : SchemaDefaults :=
  { input_file := none
    output_file := some "/output/model.vmfb"
    target := some "cuda"
    optimization_level := some "O3"
    target_features := some []
    output_format := some "vmfb"
    validation := some true
    benchmark := some false
    verbose := some false
    compilation_options := none
    compilation_options_fields := ⟨some false, some true, some false, some "default"⟩
    target_specific := none
    ts_cuda := none
    cuda_fields := ⟨some [], some 256, some false⟩
    ts_cpu := none
    cpu_fields := ⟨some "generic", some [], some 0⟩
    ts_vulkan := none
    vulkan_fields := ⟨some "1.3", some "1.1"⟩
    ts_metal := none
    metal_fields := ⟨some "2.4", none, none⟩ }

/-- Well-formedness of a default set: a declared whole-object default is
already saturated, i.e. recursing into it with the per-field defaults
changes nothing.  The defaults declared by the specification satisfy
this. -/
def WFDefaults (d : SchemaDefaults) : Prop :=
  (∀ o, d.compilation_options = some o → fillCO d.compilation_options_fields o = o) ∧
  (∀ ts, d.target_specific = some ts → fillTS d ts = ts) ∧
  (∀ c, d.ts_cuda = some c → fillCuda d.cuda_fields c = c) ∧
  (∀ c, d.ts_cpu = some c → fillCpu d.cpu_fields c = c) ∧
  (∀ c, d.ts_vulkan = some c → fillVulkan d.vulkan_fields c = c) ∧
  (∀ c, d.ts_metal = some c → fillMetal d.metal_fields c = c)

/-! ### Crash-freedom predicate for the cross-field stage -/

/-- Whether `_validate_metal_cross_fields` completes without raising: for
Metal 3.0, every present non-empty deployment target must parse as a
number. -/
def metalParseOkB (mc : MetalConfigM) : Bool :=
  mc.metal_version != "3.0" ||
  ((match mc.ios_deployment_target with
    | some s => s == "" || (parseFloat s).isSome
    | none => true) &&
   (match mc.macos_deployment_target with
    | some s => s == "" || (parseFloat s).isSome
    | none => true))

/-- Whether `_cross_validate_config` completes without raising on a dumped
model: the sub-record selected by the target must not be `None` (`cpu` and
only `cpu` has no cross-field branch), and for `metal` the deployment
targets must parse. -/
def crossSafeB (m : IreeCompilationConfigM) : Bool :=
  (m.target != "cuda" || m.target_specific.cuda.isSome) &&
  (m.target != "vulkan" || m.target_specific.vulkan.isSome) &&
  (m.target != "metal" ||
    (match m.target_specific.metal with
     | some mc => metalParseOkB mc
     | none => false))

/-! ### Concrete request dictionaries used by the claims -/

/-- The minimal well-formed request: an input file and nothing else; every
other field takes its declared default (in particular `target = cuda` with
no cuda sub-record). -/
def minimalCudaConfig : RawConfig :=
  ⟨some "/input/model.mlir", none, none, none, none, none, none, none, none, none, none⟩

/-- A minimal cpu-target request. -/
def rawCpuMinimal : RawConfig :=
  ⟨some "/input/model.mlir", none, some "cpu", none, none, none, none, none, none, none, none⟩

/-- A cpu request for the `arm64` CPU whose vector extensions include the
x86 identifier `sse2`. -/
def rawArmConfig : RawConfig :=
  ⟨some "/input/model.mlir", none, some "cpu", none, none, none, none, none, none, none,
   some ⟨none, some ⟨some "arm64", some ["sse2"], none⟩, none, none⟩⟩

/-- The request of the end-to-end scenario, exactly as the claim states
it: target cpu, optimization level O2, output format so, duplicated
feature list, and no other keys. -/
def scenarioC6 : RawConfig :=
  ⟨none, none, some "cpu", some "O2", some ["avx2", "avx2", "sse2"], some "so",
   none, none, none, none, none⟩

/-- The end-to-end scenario completed with a conforming input file and an
output file whose extension matches the `so` format. -/
def scenarioC6Completed : RawConfig :=
  ⟨some "/input/model.mlir", some "/output/model.so", some "cpu", some "O2",
   some ["avx2", "avx2", "sse2"], some "so", none, none, none, none, none⟩

/-- A family of cuda requests parametrized by the target features, the
compute capabilities, and the thread bound. -/
def rawCudaFamily (feats caps : List String) (mt : Int) : RawConfig :=
  ⟨some "/input/model.mlir", none, some "cuda", none, some feats, none,
   none, none, none, none, some ⟨some ⟨some caps, some mt, none⟩, none, none, none⟩⟩

/-! ## Basic lemmas about the string and option helpers -/

theorem orD_idem {α : Type} (a b : Option α) : orD (orD a b) b = orD a b := by
  cases a <;> cases b <;> rfl

theorem orD_some_getD {α : Type} (o : Option α) (d : α) :
    (orD o (some d)).getD d = o.getD d := by
  cases o <;> rfl

theorem orD_map_orD {α : Type} (a b : Option α) (f : α → α) :
    orD ((orD a b).map f) b = (orD a b).map f := by
  cases a <;> cases b <;> rfl

theorem listIsPref_append (p t : List Char) : listIsPref p (p ++ t) = true := by
  induction p with
  | nil => rfl
  | cons a as ih => simp [listIsPref, ih]

theorem toList_append (a b : String) : (a ++ b).toList = a.toList ++ b.toList := by
  cases a; cases b; rfl

theorem pyStartsWith_append (p t : String) : pyStartsWith (p ++ t) p = true := by
  simp [pyStartsWith, toList_append, listIsPref_append]

theorem pyEndsWith_append (t p : String) : pyEndsWith (t ++ p) p = true := by
  simp [pyEndsWith, toList_append, List.reverse_append, listIsPref_append]

theorem strAppend_assoc (a b c : String) : a ++ b ++ c = a ++ (b ++ c) := by
  cases a; cases b; cases c
  show String.mk _ = String.mk _
  rw [List.append_assoc]

theorem append_mid_ne (a m b : String) (hm : m.toList.length ≠ 0) :
    a ++ m ++ b ≠ a ++ b := by
  intro h
  have h2 := congrArg String.toList h
  rw [toList_append, toList_append, toList_append] at h2
  have h3 := congrArg List.length h2
  simp only [List.length_append] at h3
  omega

theorem lastDotSplit_concat : ∀ (cs : List Char) (s e : List Char),
    lastDotSplit cs = some (s, e) → s ++ e = cs := by
  intro cs
  induction cs with
  | nil => intro s e h; simp [lastDotSplit] at h
  | cons c rest ih =>
    intro s e h
    simp only [lastDotSplit] at h
    cases hrest : lastDotSplit rest with
    | some p =>
      rw [hrest] at h
      cases p with
      | mk ps pe =>
        simp at h
        obtain ⟨hs, he⟩ := h
        subst hs; subst he
        simp [ih ps pe hrest]
    | none =>
      rw [hrest] at h
      by_cases hc : c = '.'
      · simp [hc] at h
        obtain ⟨hs, he⟩ := h
        subst hs; subst he
        simp [hc]
      · simp [hc] at h

theorem splitExt_concat (name : String) :
    (splitExt name).1 ++ (splitExt name).2 = name := by
  unfold splitExt
  cases hls : lastDotSplit name.toList with
  | none =>
    show name ++ "" = name
    cases name with
    | mk d => show String.mk (d ++ []) = String.mk d; simp
  | some p =>
    cases p with
    | mk s e =>
      by_cases hcond : s ≠ [] && e.length > 1
      · simp only [hcond, if_pos]
        show String.mk s ++ String.mk e = name
        have h1 : String.mk s ++ String.mk e = String.mk (s ++ e) := rfl
        rw [h1, lastDotSplit_concat name.toList s e hls]
        cases name; rfl
      · simp only [hcond, if_neg]
        show name ++ "" = name
        cases name with
        | mk d => show String.mk (d ++ []) = String.mk d; simp

/-! ## Claim C10: prepared output names always carry a known extension -/

/-- C10: for every requested output filename, and for the default when
none is given, `prepare_output_directory` reserves a path whose file name
ends in `.vmfb`, `.so`, or `.dylib`; when the sanitized requested name
carries none of these three extensions, `.vmfb` is appended. -/
theorem prepare_output_name_known_extension (o : Option String) :
    pyEndsWith (prepare_output_name o) ".vmfb" = true ∨
    pyEndsWith (prepare_output_name o) ".so" = true ∨
    pyEndsWith (prepare_output_name o) ".dylib" = true := by
  unfold prepare_output_name
  cases o with
  | none => left; rfl
  | some f =>
    by_cases h : (pyEndsWith (sanitize_filename f) ".vmfb" ||
        pyEndsWith (sanitize_filename f) ".so" ||
        pyEndsWith (sanitize_filename f) ".dylib") = true
    · simp only [h, if_true]
      rcases Bool.or_eq_true_iff.mp h with h2 | h2
      · rcases Bool.or_eq_true_iff.mp h2 with h3 | h3
        · exact Or.inl h3
        · exact Or.inr (Or.inl h3)
      · exact Or.inr (Or.inr h2)
    · simp only [h]
      simp only [Bool.not_eq_true] at h
      rw [if_neg (by simp [h])]
      exact Or.inl (pyEndsWith_append (sanitize_filename f) ".vmfb")

/-! ## Claim C8: output verification -/

/-- C8: `verify_output_file` rejects a missing file, a non-regular file,
a zero-byte file, and an extension mismatch; it accepts exactly the
non-empty regular files at the right extension, where for the `vmfb`
format the only content check is that at least 4 bytes exist (the header
read returns `min size 16` bytes). -/
theorem verify_output_file_spec (f : FsFile) (fmt : String)
    (hh : f.header16.length = min f.size 16) :
    (verify_output_file f fmt).1 = true ↔
      (f.fsExists = true ∧ f.isFile = true ∧ 0 < f.size ∧
       pyEndsWith f.name ("." ++ fmt) = true ∧ (fmt = "vmfb" → 4 ≤ f.size)) := by
  unfold verify_output_file
  split_ifs with h1 h2 h3 h4 h5 h6 <;>
    simp_all <;> omega

/-- Witness for C8 at a concrete 4-byte `model.vmfb`. -/
theorem verify_output_file_spec_witness :
    (⟨true, true, 4, "model.vmfb", [0, 0, 0, 0]⟩ : FsFile).header16.length =
        min (⟨true, true, 4, "model.vmfb", [0, 0, 0, 0]⟩ : FsFile).size 16 ∧
    ((verify_output_file ⟨true, true, 4, "model.vmfb", [0, 0, 0, 0]⟩ "vmfb").1 = true ↔
      ((⟨true, true, 4, "model.vmfb", [0, 0, 0, 0]⟩ : FsFile).fsExists = true ∧
       (⟨true, true, 4, "model.vmfb", [0, 0, 0, 0]⟩ : FsFile).isFile = true ∧
       0 < (⟨true, true, 4, "model.vmfb", [0, 0, 0, 0]⟩ : FsFile).size ∧
       pyEndsWith (⟨true, true, 4, "model.vmfb", [0, 0, 0, 0]⟩ : FsFile).name ("." ++ "vmfb") = true ∧
       ("vmfb" = "vmfb" → 4 ≤ (⟨true, true, 4, "model.vmfb", [0, 0, 0, 0]⟩ : FsFile).size))) :=
  ⟨by decide, verify_output_file_spec ⟨true, true, 4, "model.vmfb", [0, 0, 0, 0]⟩ "vmfb" (by decide)⟩

/-! ## Claim C2: filename sanitization and collision avoidance -/

/-- C2 counterexample: sanitizing `"../../etc/passwd"` yields
`"file_....etcpasswd"`, which still contains the character `.` (and the
substring `..`), because dots are in the kept character class; the claim
that the result contains none of `/`, `.`, `..` is false on the dot
part. -/
theorem sanitize_passwd_keeps_dots :
    sanitize_filename "../../etc/passwd" = "file_....etcpasswd" ∧
    '.' ∈ (sanitize_filename "../../etc/passwd").toList := by
  constructor
  · decide
  · decide

theorem freeName_nil (stem sfx orig : String) : freeName [] stem sfx orig = orig := rfl

/-- A second staging of a name that collides with the single existing
staged copy yields the name with `_1` inserted before the extension. -/
theorem freeName_second (st sf orig : String) (h : st ++ sf = orig) :
    freeName [orig] st sf orig = st ++ "_1" ++ sf ∧ st ++ "_1" ++ sf ≠ orig := by
  subst h
  have hmk : st ++ "_" ++ toString (1 : Nat) ++ sf = st ++ "_1" ++ sf := by
    have h1 : (toString (1 : Nat)) = "1" := rfl
    rw [h1, strAppend_assoc st "_" "1"]
    rfl
  have hne : st ++ "_1" ++ sf ≠ st ++ sf := append_mid_ne st "_1" sf (by decide)
  refine ⟨?_, hne⟩
  unfold freeName
  rw [if_pos (by simp)]
  show freeNameGo [st ++ sf] st sf 2 1 = st ++ "_1" ++ sf
  unfold freeNameGo
  rw [if_neg (by simp [hmk, hne])]
  exact hmk

/-- C2 amended: `sanitize_filename "../../etc/passwd"` is non-empty,
contains no `/`, and does not start with a dot (dots inside the name are
kept, so `.` and `..` may remain as substrings); and a second
`prepare_input_file` staging of the same source name never reuses the
existing staged name: it returns the name with an `_1` counter inserted
between the stem and the extension. -/
theorem sanitize_and_collision_amended :
    (sanitize_filename "../../etc/passwd" ≠ "" ∧
     '/' ∉ (sanitize_filename "../../etc/passwd").toList ∧
     pyStartsWith (sanitize_filename "../../etc/passwd") "." = false) ∧
    ∀ src : String,
      prepare_input_name [prepare_input_name [] src none] src none =
        (splitExt (prepare_input_name [] src none)).1 ++ "_1" ++
          (splitExt (prepare_input_name [] src none)).2 ∧
      prepare_input_name [prepare_input_name [] src none] src none ≠
        prepare_input_name [] src none := by
  constructor
  · exact ⟨by decide, by decide, by decide⟩
  · intro src
    have h1 : prepare_input_name [] src none = sanitize_filename src := by
      unfold prepare_input_name
      exact freeName_nil _ _ _
    rw [h1]
    have h2 := freeName_second (splitExt (sanitize_filename src)).1
      (splitExt (sanitize_filename src)).2 (sanitize_filename src)
      (splitExt_concat (sanitize_filename src))
    refine ⟨h2.1, ?_⟩
    show freeName [sanitize_filename src] (splitExt (sanitize_filename src)).1
        (splitExt (sanitize_filename src)).2 (sanitize_filename src) ≠ sanitize_filename src
    rw [h2.1]
    exact h2.2

/-! ## Claim C1: run success requires output verification -/

theorem applyMarker_success (r : ExecResult) (line : String) (r2 : ExecResult)
    (h : applyMarker r line = .ok r2) : r2.success = r.success := by
  unfold applyMarker at h
  split at h
  · injection h with h; subst h; rfl
  · split at h
    · split at h
      · simp at h
      · injection h with h; subst h; rfl
    · split at h
      · split at h
        · simp at h
        · injection h with h; subst h; rfl
      · split at h
        · injection h with h; subst h; rfl
        · injection h with h; subst h; rfl

theorem foldMarkers_success : ∀ (lines : List String) (r r2 : ExecResult),
    lines.foldlM applyMarker r = .ok r2 → r2.success = r.success := by
  intro lines
  induction lines with
  | nil =>
    intro r r2 h
    simp only [List.foldlM_nil] at h
    injection h with h
    subst h; rfl
  | cons a as ih =>
    intro r r2 h
    simp only [List.foldlM_cons] at h
    cases ha : applyMarker r a with
    | error e =>
      rw [ha] at h
      exact Except.noConfusion (show (Except.error e : Except String ExecResult) = .ok r2 from h)
    | ok r1 =>
      rw [ha] at h
      have h2 : as.foldlM applyMarker r1 = .ok r2 := h
      have h1 := ih r1 r2 h2
      rw [h1, applyMarker_success r a r1 ha]

/-- C1: the result of a completed container run is judged successful only
if the produced artifact passes `verify_output_file`; the log lines — and
in particular any `SUCCESS` marker in them — never make `success` true on
their own. -/
theorem runPostRunCopy_success (ov : Bool) (targetPath : Option String)
    (outPath : String) (copyOk : Bool) (r : ExecResult) :
    (runPostRunCopy ov targetPath outPath copyOk r).success = r.success := by
  unfold runPostRunCopy
  split
  · split
    · split
      · split <;> rfl
      · rfl
    · rfl
  · rfl

/-- C1: the result of a completed container run is judged successful only
if the produced artifact passes `verify_output_file`; the log lines — and
in particular any `SUCCESS` marker in them — never make `success` true on
their own. -/
theorem run_success_requires_verified_output
    (outFile : FsFile) (fmt : String) (lines : List String)
    (ctime inPath outPath sizeFormatted hash : String)
    (targetPath : Option String) (copyOk : Bool)
    (h : (runPostRun outFile fmt lines ctime inPath outPath sizeFormatted hash
        targetPath copyOk).success = true) :
    (verify_output_file outFile fmt).1 = true := by
  simp only [runPostRun] at h
  cases hfold : lines.foldlM applyMarker
      (runPostRunBase (verify_output_file outFile fmt).1 (verify_output_file outFile fmt).2
        lines ctime inPath outPath sizeFormatted hash) with
  | error e =>
    rw [hfold] at h
    simp [runPostRunFail] at h
  | ok r =>
    rw [hfold] at h
    rw [runPostRunCopy_success] at h
    have hs := foldMarkers_success lines _ r hfold
    rw [hs] at h
    exact h

/-- Witness for C1: a successful run over a log that contains a bare
`SUCCESS` marker. -/
theorem run_success_requires_verified_output_witness :
    (runPostRun ⟨true, true, 4, "model.vmfb", [1, 2, 3, 4]⟩ "vmfb" ["SUCCESS"]
        "0.10s" "input/model.mlir" "output/model.vmfb" "4 B" "h" none true).success = true ∧
    (verify_output_file ⟨true, true, 4, "model.vmfb", [1, 2, 3, 4]⟩ "vmfb").1 = true :=
  ⟨by decide,
   run_success_requires_verified_output ⟨true, true, 4, "model.vmfb", [1, 2, 3, 4]⟩
     "vmfb" ["SUCCESS"] "0.10s" "input/model.mlir" "output/model.vmfb" "4 B" "h" none true
     (by decide)⟩

/-! ## Claim C4: totality and error collection of `validate_config` -/

theorem buildConfig_error_ne_nil (raw : RawConfig) (es : List String)
    (h : buildConfig raw = .error es) : es ≠ [] := by
  unfold buildConfig at h
  split at h
  · split at h
    · injection h with h; subst h; simp
    · exact Except.noConfusion h
  · next hfe =>
    injection h with h
    subst h
    exact hfe

theorem metalDepCheck_ok (o : Option String) (b : Rat) (msg : String)
    (hp : (match o with
           | some s => s == "" || (parseFloat s).isSome
           | none => true) = true) :
    ∃ es, metalDepCheck o b msg = .ok es := by
  unfold metalDepCheck
  cases o with
  | none => exact ⟨[], rfl⟩
  | some s =>
    by_cases hs : s = ""
    · subst hs
      exact ⟨[], by simp⟩
    · simp [hs] at hp
      cases hq : parseFloat s with
      | none => rw [hq] at hp; simp at hp
      | some q =>
        refine ⟨if q < b then [msg] else [], ?_⟩
        simp [hs, hq]

theorem metal_cross_ok_of_parse (mc : MetalConfigM) (h : metalParseOkB mc = true) :
    ∃ es, validate_metal_cross_fields mc = .ok es := by
  unfold validate_metal_cross_fields
  by_cases hv : mc.metal_version = "3.0"
  · rw [if_pos hv]
    unfold metalParseOkB at h
    rw [hv] at h
    simp only [bne_self_eq_false, Bool.false_or, Bool.and_eq_true] at h
    obtain ⟨h1, h2⟩ := h
    obtain ⟨e1, he1⟩ := metalDepCheck_ok mc.ios_deployment_target 15
      "Metal 3.0 requires iOS 15.0 or higher" h1
    obtain ⟨e2, he2⟩ := metalDepCheck_ok mc.macos_deployment_target 12
      "Metal 3.0 requires macOS 12.0 or higher" h2
    rw [he1, he2]
    exact ⟨e1 ++ e2, rfl⟩
  · rw [if_neg hv]
    exact ⟨[], rfl⟩

theorem crossValidate_ok_of_safe (m : IreeCompilationConfigM)
    (h : crossSafeB m = true) : ∃ es, crossValidateConfig m = .ok es := by
  unfold crossSafeB at h
  simp only [Bool.and_eq_true, Bool.or_eq_true, bne_iff_ne, ne_eq] at h
  obtain ⟨⟨h1, h2⟩, h3⟩ := h
  unfold crossValidateConfig
  by_cases hc : m.target = "cuda"
  · rw [if_pos hc]
    cases hcu : m.target_specific.cuda with
    | none =>
      rcases h1 with h1 | h1
      · exact absurd hc h1
      · rw [hcu] at h1; simp at h1
    | some c => exact ⟨_, rfl⟩
  · rw [if_neg hc]
    by_cases hvk : m.target = "vulkan"
    · rw [if_pos hvk]
      cases hvu : m.target_specific.vulkan with
      | none =>
        rcases h2 with h2 | h2
        · exact absurd hvk h2
        · rw [hvu] at h2; simp at h2
      | some c => exact ⟨_, rfl⟩
    · rw [if_neg hvk]
      by_cases hmt : m.target = "metal"
      · rw [if_pos hmt]
        cases hme : m.target_specific.metal with
        | none =>
          rcases h3 with h3 | h3
          · exact absurd hmt h3
          · rw [hme] at h3; simp at h3
        | some mc =>
          rcases h3 with h3 | h3
          · exact absurd hmt h3
          · rw [hme] at h3
            exact metal_cross_ok_of_parse mc h3
      · rw [if_neg hmt]
        exact ⟨[], rfl⟩

/-- C4 counterexample: on the minimal well-formed request (only an input
file, every other field defaulted), `validate_config` does not return a
pair at all: the cross-field stage dereferences the `None` cuda sub-record
of the dumped model and raises `AttributeError`. -/
theorem validate_config_raises_counterexample :
    validate_config minimalCudaConfig =
      .error "AttributeError: NoneType object has no attribute get" := by rfl

/-- C4 amended: `validate_config` returns a `(bool, errors)` pair — with
the flag true exactly when the error list is empty — for every input on
which the cross-field stage is reachable without dereferencing a `None`
sub-record (target `cpu`, or a present sub-record for the selected target,
with parseable Metal deployment targets); on the other inputs it raises
instead.  Within the model-validation stage all field errors are collected
together, but when that stage fails the cross-field errors are not
computed, so the two stages do not report together. -/
theorem validate_config_total_amended (raw : RawConfig)
    (hsafe : ∀ m, buildConfig raw = .ok m → crossSafeB m = true) :
    ∃ b es, validate_config raw = .ok (b, es) ∧ (b = true ↔ es = []) := by
  unfold validate_config
  cases hb : buildConfig raw with
  | error es =>
    refine ⟨false, es, rfl, ?_⟩
    have hne := buildConfig_error_ne_nil raw es hb
    simp [hne]
  | ok m =>
    obtain ⟨es, hc⟩ := crossValidate_ok_of_safe m (hsafe m hb)
    have hstep : (match crossValidateConfig m with
        | Except.error e => (Except.error e : Except String (Bool × List String))
        | Except.ok errs => Except.ok (errs.isEmpty, errs)) = Except.ok (es.isEmpty, es) := by
      rw [hc]
    refine ⟨es.isEmpty, es, hstep, ?_⟩
    cases es <;> simp

/-- Witness for C4 amended: the minimal cpu request. -/
theorem validate_config_total_amended_witness :
    ∃ b es, validate_config rawCpuMinimal = .ok (b, es) ∧ (b = true ↔ es = []) :=
  validate_config_total_amended rawCpuMinimal (by
    intro m hm
    have h0 : buildConfig rawCpuMinimal = .ok (buildM rawCpuMinimal) := rfl
    rw [h0] at hm
    injection hm with hm
    subst hm
    decide)

/-! ## Claim C3: the arm64 versus x86 vector-extension rule -/

/-- C3 counterexample: a cpu request with `target_cpu = "arm64"` and the
x86 identifier `"sse2"` in `vector_extensions` is accepted by
`validate_config` on its default (pydantic) path with no errors: the
cross-field stage dispatches only on cuda, vulkan and metal, and the
sub-model whitelist admits every x86 identifier regardless of the target
CPU. -/
theorem arm64_x86_accepted_counterexample :
    validate_config rawArmConfig = .ok (true, []) := by rfl

/-- C3 amended: the arm64 rule lives only on the schema-fallback path
(`use_pydantic=False`).  There, when the JSON-schema check passes, a cpu
request whose cpu sub-record has `target_cpu = "arm64"` and at least one
x86 identifier among its vector extensions is rejected, with one error
reported for each x86 identifier in the list; the default pydantic path
performs no such check and accepts these requests. -/
theorem arm64_x86_schema_path_amended (raw : RawConfig) (ts : RawTargetSpecific)
    (c : RawCpuConfig)
    (h1 : raw.target = some "cpu") (h2 : raw.target_specific = some ts)
    (h3 : ts.cpu = some c) (h4 : c.target_cpu = some "arm64")
    (h5 : ∃ e, e ∈ c.vector_extensions.getD [] ∧ e ∈ x86Extensions) :
    ∃ es, validate_config_schema none raw = .ok (false, es) ∧
      ∀ e ∈ c.vector_extensions.getD [], e ∈ x86Extensions →
        ("x86 vector extension " ++ e ++ " not compatible with ARM64 target") ∈ es := by
  have hts : customTsPart raw "cpu" = .ok (validate_cpu_config_raw c) := by
    unfold customTsPart
    rw [h2]
    have hred : (match ts.cpu with
        | some c => Except.ok (validate_cpu_config_raw c)
        | none => (Except.ok [] : Except String (List String))) =
        Except.ok (validate_cpu_config_raw c) := by rw [h3]
    exact hred
  have hcpu : validate_cpu_config_raw c =
      ((c.vector_extensions.getD []).filter (fun ext => x86Extensions.contains ext)).map
        (fun ext => "x86 vector extension " ++ ext ++ " not compatible with ARM64 target") := by
    unfold validate_cpu_config_raw
    rw [h4]
    rfl
  have hcv : custom_validations raw =
      .ok (validate_cpu_config_raw c ++ customFmtPart raw ++ customFeatPart raw "cpu") := by
    unfold custom_validations
    rw [h1]
    show (match customTsPart raw "cpu" with
      | Except.error e => (Except.error e : Except String (List String))
      | Except.ok tsErrs => Except.ok (tsErrs ++ customFmtPart raw ++ customFeatPart raw "cpu")) = _
    rw [hts]
  have hfeat : customFeatPart raw "cpu" = [] := by
    unfold customFeatPart
    rw [if_neg (by decide)]
  obtain ⟨e0, he0mem, he0x⟩ := h5
  have he0f : e0 ∈ (c.vector_extensions.getD []).filter (fun ext => x86Extensions.contains ext) :=
    List.mem_filter.mpr ⟨he0mem, List.elem_iff.mpr he0x⟩
  have hLne : validate_cpu_config_raw c ≠ [] := by
    rw [hcpu]
    intro hnil
    rw [List.map_eq_nil_iff] at hnil
    rw [hnil] at he0f
    exact List.not_mem_nil e0 he0f
  refine ⟨validate_cpu_config_raw c ++ customFmtPart raw ++ customFeatPart raw "cpu", ?_, ?_⟩
  · unfold validate_config_schema
    show (match custom_validations raw with
      | Except.error e => (Except.error e : Except String (Bool × List String))
      | Except.ok errs => Except.ok (errs.isEmpty, errs)) = _
    rw [hcv]
    have hne : validate_cpu_config_raw c ++ customFmtPart raw ++ customFeatPart raw "cpu" ≠ [] := by
      intro hnil
      rcases List.append_eq_nil.mp hnil with ⟨hnil2, _⟩
      rcases List.append_eq_nil.mp hnil2 with ⟨hnil3, _⟩
      exact hLne hnil3
    have hemp : (validate_cpu_config_raw c ++ customFmtPart raw ++ customFeatPart raw "cpu").isEmpty = false := by
      cases hval : validate_cpu_config_raw c ++ customFmtPart raw ++ customFeatPart raw "cpu" with
      | nil => exact absurd hval hne
      | cons a l => rfl
    show Except.ok ((validate_cpu_config_raw c ++ customFmtPart raw ++ customFeatPart raw "cpu").isEmpty,
      validate_cpu_config_raw c ++ customFmtPart raw ++ customFeatPart raw "cpu") = _
    rw [hemp]
  · intro e hemem hex
    have hef : e ∈ (c.vector_extensions.getD []).filter (fun ext => x86Extensions.contains ext) :=
      List.mem_filter.mpr ⟨hemem, List.elem_iff.mpr hex⟩
    have hemap : ("x86 vector extension " ++ e ++ " not compatible with ARM64 target") ∈
        validate_cpu_config_raw c := by
      rw [hcpu]
      exact List.mem_map_of_mem _ hef
    exact List.mem_append_left _ (List.mem_append_left _ hemap)

/-- Witness for C3 amended at the concrete arm64 request with `sse2`. -/
theorem arm64_x86_schema_path_amended_witness :
    ∃ es, validate_config_schema none rawArmConfig = .ok (false, es) ∧
      ∀ e ∈ ((⟨some "arm64", some ["sse2"], none⟩ : RawCpuConfig)).vector_extensions.getD [],
        e ∈ x86Extensions →
        ("x86 vector extension " ++ e ++ " not compatible with ARM64 target") ∈ es :=
  arm64_x86_schema_path_amended rawArmConfig
    ⟨none, some ⟨some "arm64", some ["sse2"], none⟩, none, none⟩
    ⟨some "arm64", some ["sse2"], none⟩
    rfl rfl rfl rfl ⟨"sse2", by decide, by decide⟩

/-! ## Claim C6: the end-to-end normalization scenario -/

/-- C6 counterexample: the request exactly as stated — target cpu, level
O2, format so, duplicated features, and nothing else — does not validate:
`input_file` is a required field, so `validate_and_normalize` reports an
error list instead of a normalized request. -/
theorem scenario_as_stated_counterexample :
    validate_and_normalize scenarioC6 =
      .ok (.errs ["Validation error at input_file: Field required"]) := by rfl

/-- C6 amended: once the request is completed with a conforming
`input_file` and an `output_file` matching the `so` format, it validates
and normalizes, and the duplicated feature list `["avx2","avx2","sse2"]`
becomes exactly `["avx2","sse2"]` — deduplicated and canonically
sorted. -/
theorem scenario_completed_normalizes :
    ∃ m, validate_and_normalize scenarioC6Completed = .ok (.ok m) ∧
      m.target_features = ["avx2", "sse2"] :=
  ⟨_, rfl, by decide⟩

/-! ## Claim C9: cuda compute-capability containment and thread bound -/

/-- C9: over the cuda request family with well-formed capability strings
and `sm_`-prefixed features, both lists non-empty, validation succeeds
with no errors exactly when every compute capability also appears among
the target features — extra target features are never an error — and the
thread bound is a (positive) multiple of 32 within `[32, 1024]`. -/
theorem cuda_cross_requirements (feats caps : List String) (mt : Int)
    (hf : feats ≠ []) (hc : caps ≠ [])
    (hcf : ∀ cap ∈ caps, smFormatOk cap = true)
    (hff : ∀ f ∈ feats, pyStartsWith f "sm_" = true) :
    validate_config (rawCudaFamily feats caps mt) = .ok (true, []) ↔
      ((∀ cap ∈ caps, cap ∈ feats) ∧ 32 ≤ mt ∧ mt ≤ 1024 ∧ mt % 32 = 0) := by
  have hfind : caps.find? (fun cap => !smFormatOk cap) = none :=
    List.find?_eq_none.mpr (fun x hx => by simp [hcf x hx])
  have hfind2 : feats.find? (fun f => !pyStartsWith f "sm_") = none :=
    List.find?_eq_none.mpr (fun x hx => by simp [hff x hx])
  have hfe0 : fieldErrors (rawCudaFamily feats caps mt) =
      cudaSubErrs ⟨some caps, some mt, none⟩ ++ [] ++ [] ++ [] := rfl
  have hsub : cudaSubErrs ⟨some caps, some mt, none⟩ =
      (if mt < 32 then
        ["Validation error at target_specific -> cuda -> max_threads_per_block: Input should be greater than or equal to 32"]
      else if 1024 < mt then
        ["Validation error at target_specific -> cuda -> max_threads_per_block: Input should be less than or equal to 1024"]
      else if mt % 32 ≠ 0 then
        ["Validation error at target_specific -> cuda -> max_threads_per_block: max_threads_per_block must be a multiple of 32 (warp size)"]
      else []) := by
    unfold cudaSubErrs
    simp only [Option.getD_some]
    rw [hfind]
    simp
  have hfe : fieldErrors (rawCudaFamily feats caps mt) =
      (if mt < 32 then
        ["Validation error at target_specific -> cuda -> max_threads_per_block: Input should be greater than or equal to 32"]
      else if 1024 < mt then
        ["Validation error at target_specific -> cuda -> max_threads_per_block: Input should be less than or equal to 1024"]
      else if mt % 32 ≠ 0 then
        ["Validation error at target_specific -> cuda -> max_threads_per_block: max_threads_per_block must be a multiple of 32 (warp size)"]
      else []) := by
    rw [hfe0, hsub]
    simp
  have hmodel0 : modelErr (buildM (rawCudaFamily feats caps mt)) =
      (feats.find? (fun f => !pyStartsWith f "sm_")).map
        (fun f => "Validation error: CUDA target features must start with sm_: " ++ f) := rfl
  rw [hfind2] at hmodel0
  have hmodel : modelErr (buildM (rawCudaFamily feats caps mt)) = none := by
    simpa using hmodel0
  have hcaps : caps.isEmpty = false := by
    cases caps with
    | nil => exact absurd rfl hc
    | cons a l => rfl
  have hfeats : feats.isEmpty = false := by
    cases feats with
    | nil => exact absurd rfl hf
    | cons a l => rfl
  have hcve : validate_cuda_cross_fields feats ⟨caps, mt, false⟩ =
      (caps.filter (fun cap => !feats.contains cap)).map
        (fun cap => "Compute capability " ++ cap ++ " not found in target_features") := by
    unfold validate_cuda_cross_fields
    rw [if_pos]
    show (!(⟨caps, mt, false⟩ : CudaConfigM).compute_capability.isEmpty && !feats.isEmpty) = true
    show (!caps.isEmpty && !feats.isEmpty) = true
    rw [hcaps, hfeats]
    rfl
  have hcross : crossValidateConfig (buildM (rawCudaFamily feats caps mt)) =
      .ok (validate_cuda_cross_fields feats ⟨caps, mt, false⟩) := rfl
  by_cases hmt : 32 ≤ mt ∧ mt ≤ 1024 ∧ mt % 32 = 0
  · have hfeNil : fieldErrors (rawCudaFamily feats caps mt) = [] := by
      rw [hfe, if_neg (by omega), if_neg (by omega), if_neg (by simp; omega)]
    have hb : buildConfig (rawCudaFamily feats caps mt) =
        .ok (buildM (rawCudaFamily feats caps mt)) := by
      unfold buildConfig
      rw [if_pos hfeNil, hmodel]
    have hv : validate_config (rawCudaFamily feats caps mt) =
        .ok (((caps.filter (fun cap => !feats.contains cap)).map
          (fun cap => "Compute capability " ++ cap ++ " not found in target_features")).isEmpty,
          (caps.filter (fun cap => !feats.contains cap)).map
            (fun cap => "Compute capability " ++ cap ++ " not found in target_features")) := by
      unfold validate_config
      rw [hb]
      show (match crossValidateConfig (buildM (rawCudaFamily feats caps mt)) with
        | Except.error e => (Except.error e : Except String (Bool × List String))
        | Except.ok errs => Except.ok (errs.isEmpty, errs)) = _
      rw [hcross, hcve]
    rw [hv]
    constructor
    · intro h
      injection h with h
      have hsnd := congrArg Prod.snd h
      simp only at hsnd
      refine ⟨?_, hmt⟩
      intro cap hcap
      by_contra hnot
      have hcapf : cap ∈ caps.filter (fun cap => !feats.contains cap) :=
        List.mem_filter.mpr ⟨hcap, by simp [List.elem_iff, hnot]⟩
      have hmem0 : ("Compute capability " ++ cap ++ " not found in target_features") ∈
          ([] : List String) := by
        rw [← hsnd]
        exact List.mem_map_of_mem _ hcapf
      exact List.not_mem_nil _ hmem0
    · intro ⟨hmem, _⟩
      have hnil : caps.filter (fun cap => !feats.contains cap) = [] :=
        List.filter_eq_nil_iff.mpr (fun cap hcap => by simp [List.elem_iff, hmem cap hcap])
      rw [hnil]
      rfl
  · have hfeNe : fieldErrors (rawCudaFamily feats caps mt) ≠ [] := by
      rw [hfe]
      by_cases h1 : mt < 32
      · simp [h1]
      · by_cases h2 : 1024 < mt
        · simp [h1, h2]
        · have h3 : mt % 32 ≠ 0 := by
            intro h3
            exact hmt ⟨by omega, by omega, h3⟩
          simp [h1, h2, h3]
    have hb : buildConfig (rawCudaFamily feats caps mt) =
        .error (fieldErrors (rawCudaFamily feats caps mt)) := by
      unfold buildConfig
      rw [if_neg hfeNe]
    have hv : validate_config (rawCudaFamily feats caps mt) =
        .ok (false, fieldErrors (rawCudaFamily feats caps mt)) := by
      unfold validate_config
      rw [hb]
    rw [hv]
    constructor
    · intro h
      injection h with h
      have hfst := congrArg Prod.fst h
      simp at hfst
    · intro ⟨_, hm1, hm2, hm3⟩
      exact absurd ⟨hm1, hm2, hm3⟩ hmt

/-- Witness for C9: a single capability matching the single feature with
a conforming thread bound. -/
theorem cuda_cross_requirements_witness :
    validate_config (rawCudaFamily ["sm_80"] ["sm_80"] 256) = .ok (true, []) :=
  (cuda_cross_requirements ["sm_80"] ["sm_80"] 256 (by decide) (by decide)
    (by decide) (by decide)).mpr ⟨by decide, by decide, by decide, by decide⟩

/-! ## Claim C5: idempotence of normalization -/

theorem sortedDedup_idem (l : List String) : sortedDedup (sortedDedup l) = sortedDedup l := by
  unfold sortedDedup
  have hnd : (List.insertionSort strLeR l.dedup).Nodup :=
    ((List.perm_insertionSort strLeR l.dedup).symm).nodup (List.nodup_dedup l)
  rw [List.dedup_eq_self.mpr hnd]
  exact (List.sorted_insertionSort strLeR l.dedup).insertionSort_eq

theorem sortedDedup_ne_nil (l : List String) (h : l ≠ []) : sortedDedup l ≠ [] := by
  unfold sortedDedup
  intro hnil
  have hlen := congrArg List.length hnil
  rw [List.length_insertionSort] at hlen
  have h0 := List.length_eq_zero.mp hlen
  exact h ((List.dedup_eq_nil l).mp h0)

theorem aanOutput_target_features (m : IreeCompilationConfigM) :
    (aanOutput m).target_features = m.target_features := by
  unfold aanOutput; split <;> rfl

theorem aanOutput_input_file (m : IreeCompilationConfigM) :
    (aanOutput m).input_file = m.input_file := by
  unfold aanOutput; split <;> rfl

theorem aanInput_target_features (m : IreeCompilationConfigM) :
    (aanInput m).target_features = m.target_features := by
  unfold aanInput; split <;> rfl

theorem aanInput_output_file (m : IreeCompilationConfigM) :
    (aanInput m).output_file = m.output_file := by
  unfold aanInput; split <;> rfl

theorem aanOutput_starts (m : IreeCompilationConfigM) :
    pyStartsWith (aanOutput m).output_file "/output/" = true := by
  unfold aanOutput
  split
  · exact pyStartsWith_append "/output/" (basename m.output_file)
  · next h => simpa using h

theorem aanInput_starts (m : IreeCompilationConfigM) :
    pyStartsWith (aanInput m).input_file "/input/" = true := by
  unfold aanInput
  split
  · exact pyStartsWith_append "/input/" (basename m.input_file)
  · next h => simpa using h

theorem aanOutput_fixes (m : IreeCompilationConfigM)
    (h : pyStartsWith m.output_file "/output/" = true) : aanOutput m = m := by
  unfold aanOutput
  rw [if_neg (by simp [h])]

theorem aanInput_fixes (m : IreeCompilationConfigM)
    (h : pyStartsWith m.input_file "/input/" = true) : aanInput m = m := by
  unfold aanInput
  rw [if_neg (by simp [h])]

theorem aanFeatures_tf (m : IreeCompilationConfigM) :
    sortedDedup (aanFeatures m).target_features = (aanFeatures m).target_features := by
  unfold aanFeatures
  split
  · exact sortedDedup_idem m.target_features
  · next h =>
    simp only [Bool.not_eq_true'] at h
    have h2 : m.target_features = [] := by simpa [List.isEmpty_iff] using h
    show sortedDedup m.target_features = m.target_features
    rw [h2]
    rfl

theorem aanFeatures_fix_cond (m : IreeCompilationConfigM)
    (h : sortedDedup m.target_features = m.target_features) : aanFeatures m = m := by
  unfold aanFeatures
  split
  · show ({ m with target_features := sortedDedup m.target_features } : IreeCompilationConfigM) = m
    rw [h]
  · rfl

theorem dedupStep_input_file (c : RawConfig) : (dedupStep c).input_file = c.input_file := rfl

theorem dedupStep_output_file (c : RawConfig) : (dedupStep c).output_file = c.output_file := rfl

theorem outputFixStep_input_file (c : RawConfig) :
    (outputFixStep c).input_file = c.input_file := by
  unfold outputFixStep; split <;> rfl

theorem outputFixStep_target_features (c : RawConfig) :
    (outputFixStep c).target_features = c.target_features := by
  unfold outputFixStep; split <;> rfl

theorem outputFixStep_compilation_options (c : RawConfig) :
    (outputFixStep c).compilation_options = c.compilation_options := by
  unfold outputFixStep; split <;> rfl

theorem outputFixStep_target_specific (c : RawConfig) :
    (outputFixStep c).target_specific = c.target_specific := by
  unfold outputFixStep; split <;> rfl

theorem outputFixStep_scalars (c : RawConfig) :
    (outputFixStep c).target = c.target ∧
    (outputFixStep c).optimization_level = c.optimization_level ∧
    (outputFixStep c).output_format = c.output_format ∧
    (outputFixStep c).validation = c.validation ∧
    (outputFixStep c).benchmark = c.benchmark ∧
    (outputFixStep c).verbose = c.verbose := by
  unfold outputFixStep; split <;> exact ⟨rfl, rfl, rfl, rfl, rfl, rfl⟩

theorem inputFixStep_output_file (c : RawConfig) :
    (inputFixStep c).output_file = c.output_file := by
  unfold inputFixStep; split <;> rfl

theorem inputFixStep_target_features (c : RawConfig) :
    (inputFixStep c).target_features = c.target_features := by
  unfold inputFixStep; split <;> rfl

theorem inputFixStep_compilation_options (c : RawConfig) :
    (inputFixStep c).compilation_options = c.compilation_options := by
  unfold inputFixStep; split <;> rfl

theorem inputFixStep_target_specific (c : RawConfig) :
    (inputFixStep c).target_specific = c.target_specific := by
  unfold inputFixStep; split <;> rfl

theorem inputFixStep_scalars (c : RawConfig) :
    (inputFixStep c).target = c.target ∧
    (inputFixStep c).optimization_level = c.optimization_level ∧
    (inputFixStep c).output_format = c.output_format ∧
    (inputFixStep c).validation = c.validation ∧
    (inputFixStep c).benchmark = c.benchmark ∧
    (inputFixStep c).verbose = c.verbose := by
  unfold inputFixStep; split <;> exact ⟨rfl, rfl, rfl, rfl, rfl, rfl⟩

theorem outputFixStep_starts (c : RawConfig) :
    pyStartsWith ((outputFixStep c).output_file.getD "/output/model.vmfb") "/output/" = true := by
  unfold outputFixStep
  split
  · next h => exact h
  · exact pyStartsWith_append "/output/" (basename (c.output_file.getD "/output/model.vmfb"))

theorem inputFixStep_starts (c : RawConfig) :
    pyStartsWith ((inputFixStep c).input_file.getD "/input/model.mlir") "/input/" = true := by
  unfold inputFixStep
  split
  · next h => exact h
  · exact pyStartsWith_append "/input/" (basename (c.input_file.getD "/input/model.mlir"))

theorem outputFixStep_fix (c : RawConfig)
    (h : pyStartsWith (c.output_file.getD "/output/model.vmfb") "/output/" = true) :
    outputFixStep c = c := by
  unfold outputFixStep
  rw [if_pos h]

theorem inputFixStep_fix (c : RawConfig)
    (h : pyStartsWith (c.input_file.getD "/input/model.mlir") "/input/" = true) :
    inputFixStep c = c := by
  unfold inputFixStep
  rw [if_pos h]

theorem fillCO_idem (d o : RawCompilationOptions) :
    fillCO d (fillCO d o) = fillCO d o := by
  simp [fillCO, orD_idem]

theorem fillCuda_idem (d c : RawCudaConfig) : fillCuda d (fillCuda d c) = fillCuda d c := by
  simp [fillCuda, orD_idem]

theorem fillCpu_idem (d c : RawCpuConfig) : fillCpu d (fillCpu d c) = fillCpu d c := by
  simp [fillCpu, orD_idem]

theorem fillVulkan_idem (d c : RawVulkanConfig) :
    fillVulkan d (fillVulkan d c) = fillVulkan d c := by
  simp [fillVulkan, orD_idem]

theorem fillMetal_idem (d c : RawMetalConfig) :
    fillMetal d (fillMetal d c) = fillMetal d c := by
  simp [fillMetal, orD_idem]

theorem fillTS_idem (d : SchemaDefaults) (hwf : WFDefaults d) (ts : RawTargetSpecific) :
    fillTS d (fillTS d ts) = fillTS d ts := by
  obtain ⟨-, -, hcu, hcp, hvu, hme⟩ := hwf
  unfold fillTS
  apply RawTargetSpecific.ext <;> simp only
  · cases hc : ts.cuda with
    | none =>
      cases hd : d.ts_cuda with
      | none => simp
      | some c => simp [hcu c hd]
    | some c => simp [fillCuda_idem]
  · cases hc : ts.cpu with
    | none =>
      cases hd : d.ts_cpu with
      | none => simp
      | some c => simp [hcp c hd]
    | some c => simp [fillCpu_idem]
  · cases hc : ts.vulkan with
    | none =>
      cases hd : d.ts_vulkan with
      | none => simp
      | some c => simp [hvu c hd]
    | some c => simp [fillVulkan_idem]
  · cases hc : ts.metal with
    | none =>
      cases hd : d.ts_metal with
      | none => simp
      | some c => simp [hme c hd]
    | some c => simp [fillMetal_idem]

theorem normalize_input_file_orD (d : SchemaDefaults) (raw : RawConfig) :
    orD (normalize_config d raw).input_file d.input_file =
      (normalize_config d raw).input_file := by
  unfold normalize_config inputFixStep
  split
  · rw [outputFixStep_input_file, dedupStep_input_file]
    show orD (orD raw.input_file d.input_file) d.input_file = orD raw.input_file d.input_file
    exact orD_idem _ _
  · rfl

theorem normalize_output_file_orD (d : SchemaDefaults) (raw : RawConfig) :
    orD (normalize_config d raw).output_file d.output_file =
      (normalize_config d raw).output_file := by
  unfold normalize_config
  rw [inputFixStep_output_file]
  unfold outputFixStep
  split
  · rw [dedupStep_output_file]
    show orD (orD raw.output_file d.output_file) d.output_file = orD raw.output_file d.output_file
    exact orD_idem _ _
  · rfl

theorem normalize_target_features (d : SchemaDefaults) (raw : RawConfig) :
    (normalize_config d raw).target_features =
      (orD raw.target_features d.target_features).map List.dedup := by
  unfold normalize_config
  rw [inputFixStep_target_features, outputFixStep_target_features]
  rfl

theorem normalize_compilation_options (d : SchemaDefaults) (raw : RawConfig) :
    (normalize_config d raw).compilation_options =
      (match raw.compilation_options with
       | none => d.compilation_options
       | some o => some (fillCO d.compilation_options_fields o)) := by
  unfold normalize_config
  rw [inputFixStep_compilation_options, outputFixStep_compilation_options]
  rfl

theorem normalize_target_specific (d : SchemaDefaults) (raw : RawConfig) :
    (normalize_config d raw).target_specific =
      (match raw.target_specific with
       | none => d.target_specific
       | some ts => some (fillTS d ts)) := by
  unfold normalize_config
  rw [inputFixStep_target_specific, outputFixStep_target_specific]
  rfl

theorem applyDefaults_fix (d : SchemaDefaults) (hwf : WFDefaults d) (raw : RawConfig) :
    applyDefaults d (normalize_config d raw) = normalize_config d raw := by
  have hco := hwf.1
  have hts := hwf.2.1
  apply RawConfig.ext
  · exact normalize_input_file_orD d raw
  · exact normalize_output_file_orD d raw
  · show orD (normalize_config d raw).target d.target = (normalize_config d raw).target
    unfold normalize_config
    rw [(inputFixStep_scalars _).1, (outputFixStep_scalars _).1]
    show orD (orD raw.target d.target) d.target = orD raw.target d.target
    exact orD_idem _ _
  · show orD (normalize_config d raw).optimization_level d.optimization_level =
      (normalize_config d raw).optimization_level
    unfold normalize_config
    rw [(inputFixStep_scalars _).2.1, (outputFixStep_scalars _).2.1]
    show orD (orD raw.optimization_level d.optimization_level) d.optimization_level =
      orD raw.optimization_level d.optimization_level
    exact orD_idem _ _
  · show orD (normalize_config d raw).target_features d.target_features =
      (normalize_config d raw).target_features
    rw [normalize_target_features]
    exact orD_map_orD _ _ _
  · show orD (normalize_config d raw).output_format d.output_format =
      (normalize_config d raw).output_format
    unfold normalize_config
    rw [(inputFixStep_scalars _).2.2.1, (outputFixStep_scalars _).2.2.1]
    show orD (orD raw.output_format d.output_format) d.output_format =
      orD raw.output_format d.output_format
    exact orD_idem _ _
  · show orD (normalize_config d raw).validation d.validation =
      (normalize_config d raw).validation
    unfold normalize_config
    rw [(inputFixStep_scalars _).2.2.2.1, (outputFixStep_scalars _).2.2.2.1]
    show orD (orD raw.validation d.validation) d.validation = orD raw.validation d.validation
    exact orD_idem _ _
  · show orD (normalize_config d raw).benchmark d.benchmark =
      (normalize_config d raw).benchmark
    unfold normalize_config
    rw [(inputFixStep_scalars _).2.2.2.2.1, (outputFixStep_scalars _).2.2.2.2.1]
    show orD (orD raw.benchmark d.benchmark) d.benchmark = orD raw.benchmark d.benchmark
    exact orD_idem _ _
  · show orD (normalize_config d raw).verbose d.verbose = (normalize_config d raw).verbose
    unfold normalize_config
    rw [(inputFixStep_scalars _).2.2.2.2.2, (outputFixStep_scalars _).2.2.2.2.2]
    show orD (orD raw.verbose d.verbose) d.verbose = orD raw.verbose d.verbose
    exact orD_idem _ _
  · show (match (normalize_config d raw).compilation_options with
      | none => d.compilation_options
      | some o => some (fillCO d.compilation_options_fields o)) =
      (normalize_config d raw).compilation_options
    rw [normalize_compilation_options]
    cases hraw : raw.compilation_options with
    | none =>
      cases hd : d.compilation_options with
      | none => simp
      | some o => simp [hco o hd]
    | some o => simp [fillCO_idem]
  · show (match (normalize_config d raw).target_specific with
      | none => d.target_specific
      | some ts => some (fillTS d ts)) =
      (normalize_config d raw).target_specific
    rw [normalize_target_specific]
    cases hraw : raw.target_specific with
    | none =>
      cases hd : d.target_specific with
      | none => simp
      | some ts => simp [hts ts hd]
    | some ts => simp [fillTS_idem d hwf ts]

theorem dedupStep_fix (d : SchemaDefaults) (raw : RawConfig) :
    dedupStep (normalize_config d raw) = normalize_config d raw := by
  unfold dedupStep
  have htf : (normalize_config d raw).target_features.map List.dedup =
      (normalize_config d raw).target_features := by
    rw [normalize_target_features]
    cases orD raw.target_features d.target_features with
    | none => rfl
    | some l => simp [List.dedup_idem]
  rw [htf]

theorem outputFixStep_fix_norm (d : SchemaDefaults) (raw : RawConfig) :
    outputFixStep (normalize_config d raw) = normalize_config d raw := by
  apply outputFixStep_fix
  show pyStartsWith ((inputFixStep (outputFixStep (dedupStep (applyDefaults d raw)))).output_file.getD
    "/output/model.vmfb") "/output/" = true
  rw [inputFixStep_output_file]
  exact outputFixStep_starts _

theorem inputFixStep_fix_norm (d : SchemaDefaults) (raw : RawConfig) :
    inputFixStep (normalize_config d raw) = normalize_config d raw := by
  apply inputFixStep_fix
  exact inputFixStep_starts _

theorem normalize_config_idem (d : SchemaDefaults) (raw : RawConfig) (hwf : WFDefaults d) :
    normalize_config d (normalize_config d raw) = normalize_config d raw := by
  show inputFixStep (outputFixStep (dedupStep (applyDefaults d (normalize_config d raw)))) =
    normalize_config d raw
  rw [applyDefaults_fix d hwf raw, dedupStep_fix, outputFixStep_fix_norm, inputFixStep_fix_norm]

/-- C5: normalization is idempotent.  `normalize_config` is idempotent for
every request and every well-formed default set of the external schema
(the defaults declared by the specification are such a set), and the
additional normalization pass of `validate_and_normalize` is idempotent on
every dumped model. -/
theorem normalization_idempotent :
    (∀ (d : SchemaDefaults) (raw : RawConfig), WFDefaults d →
      normalize_config d (normalize_config d raw) = normalize_config d raw) ∧
    (∀ m : IreeCompilationConfigM,
      apply_additional_normalization (apply_additional_normalization m) =
        apply_additional_normalization m) := by
  constructor
  · intro d raw hwf
    exact normalize_config_idem d raw hwf
  · intro m
    unfold apply_additional_normalization
    have h1 : aanFeatures (aanInput (aanOutput (aanFeatures m))) =
        aanInput (aanOutput (aanFeatures m)) := by
      apply aanFeatures_fix_cond
      rw [aanInput_target_features, aanOutput_target_features]
      exact aanFeatures_tf m
    have h2 : aanOutput (aanInput (aanOutput (aanFeatures m))) =
        aanInput (aanOutput (aanFeatures m)) := by
      apply aanOutput_fixes
      rw [aanInput_output_file]
      exact aanOutput_starts (aanFeatures m)
    have h3 : aanInput (aanInput (aanOutput (aanFeatures m))) =
        aanInput (aanOutput (aanFeatures m)) := by
      apply aanInput_fixes
      exact aanInput_starts (aanOutput (aanFeatures m))
    rw [h1, h2, h3]

/-- Witness for C5: the defaults declared by the specification are
well-formed, and normalizing the minimal request twice equals normalizing
it once. -/
theorem normalization_idempotent_witness :
    WFDefaults specDefaults ∧
    normalize_config specDefaults (normalize_config specDefaults minimalCudaConfig) =
      normalize_config specDefaults minimalCudaConfig := by
  have hwf : WFDefaults specDefaults := by
    refine ⟨?_, ?_, ?_, ?_, ?_, ?_⟩ <;> intro x h <;> exact Option.noConfusion h
  exact ⟨hwf, normalization_idempotent.1 specDefaults minimalCudaConfig hwf⟩

/-! ## Claim C7: validity is preserved by normalization -/

theorem orD_none_right {α : Type} (a : Option α) : orD a none = a := by
  cases a <;> rfl

theorem orD_some_eq {α : Type} (o : Option α) (d : α) :
    orD o (some d) = some (o.getD d) := by
  cases o <;> rfl

theorem normalize_target (d : SchemaDefaults) (raw : RawConfig) :
    (normalize_config d raw).target = orD raw.target d.target := by
  unfold normalize_config
  rw [(inputFixStep_scalars _).1, (outputFixStep_scalars _).1]
  rfl

theorem normalize_opt_level (d : SchemaDefaults) (raw : RawConfig) :
    (normalize_config d raw).optimization_level = orD raw.optimization_level d.optimization_level := by
  unfold normalize_config
  rw [(inputFixStep_scalars _).2.1, (outputFixStep_scalars _).2.1]
  rfl

theorem normalize_output_format (d : SchemaDefaults) (raw : RawConfig) :
    (normalize_config d raw).output_format = orD raw.output_format d.output_format := by
  unfold normalize_config
  rw [(inputFixStep_scalars _).2.2.1, (outputFixStep_scalars _).2.2.1]
  rfl

theorem normalize_validation (d : SchemaDefaults) (raw : RawConfig) :
    (normalize_config d raw).validation = orD raw.validation d.validation := by
  unfold normalize_config
  rw [(inputFixStep_scalars _).2.2.2.1, (outputFixStep_scalars _).2.2.2.1]
  rfl

theorem normalize_benchmark (d : SchemaDefaults) (raw : RawConfig) :
    (normalize_config d raw).benchmark = orD raw.benchmark d.benchmark := by
  unfold normalize_config
  rw [(inputFixStep_scalars _).2.2.2.2.1, (outputFixStep_scalars _).2.2.2.2.1]
  rfl

theorem normalize_verbose (d : SchemaDefaults) (raw : RawConfig) :
    (normalize_config d raw).verbose = orD raw.verbose d.verbose := by
  unfold normalize_config
  rw [(inputFixStep_scalars _).2.2.2.2.2, (outputFixStep_scalars _).2.2.2.2.2]
  rfl

theorem normalize_input_file_good (d : SchemaDefaults) (raw : RawConfig) (v : String)
    (hv : raw.input_file = some v) (hs : pyStartsWith v "/input/" = true) :
    (normalize_config d raw).input_file = some v := by
  have hpre : (outputFixStep (dedupStep (applyDefaults d raw))).input_file = some v := by
    rw [outputFixStep_input_file, dedupStep_input_file]
    show orD raw.input_file d.input_file = some v
    rw [hv]
    rfl
  show (inputFixStep (outputFixStep (dedupStep (applyDefaults d raw)))).input_file = some v
  rw [inputFixStep_fix _ (by rw [hpre]; exact hs)]
  exact hpre

theorem normalize_output_file_good (raw : RawConfig)
    (hs : pyStartsWith (raw.output_file.getD "/output/model.vmfb") "/output/" = true) :
    (normalize_config specDefaults raw).output_file =
      some (raw.output_file.getD "/output/model.vmfb") := by
  have hpre : (dedupStep (applyDefaults specDefaults raw)).output_file =
      some (raw.output_file.getD "/output/model.vmfb") := by
    rw [dedupStep_output_file]
    show orD raw.output_file (some "/output/model.vmfb") = _
    exact orD_some_eq _ _
  show (inputFixStep (outputFixStep (dedupStep (applyDefaults specDefaults raw)))).output_file = _
  rw [inputFixStep_output_file]
  rw [outputFixStep_fix _ (by rw [hpre]; exact hs)]
  exact hpre

theorem inputFileErrs_nil (o : Option String) (h : inputFileErrs o = []) :
    ∃ v, o = some v ∧ pyStartsWith v "/input/" = true ∧ pyEndsWith v ".mlir" = true := by
  cases o with
  | none => simp [inputFileErrs] at h
  | some v =>
    unfold inputFileErrs at h
    by_cases hc : (pyStartsWith v "/input/" && pyEndsWith v ".mlir") = true
    · obtain ⟨h1, h2⟩ := Bool.and_eq_true_iff.mp hc
      exact ⟨v, rfl, h1, h2⟩
    · exfalso
      have h2 : (if (pyStartsWith v "/input/" && pyEndsWith v ".mlir") = true then ([] : List String)
          else ["Validation error at input_file: Input file must be in /input/ directory and have .mlir extension"]) = [] := h
      rw [if_neg hc] at h2
      simp at h2

theorem outputFileErrs_nil (o : Option String) (h : outputFileErrs o = []) :
    pyStartsWith (o.getD "/output/model.vmfb") "/output/" = true := by
  unfold outputFileErrs at h
  by_cases hc : pyStartsWith (o.getD "/output/model.vmfb") "/output/" = true
  · exact hc
  · rw [if_neg hc] at h
    simp at h

theorem targetErrs_orD (o : Option String) :
    targetErrs (orD o (some "cuda")) = targetErrs o := by
  unfold targetErrs
  rw [orD_some_getD]

theorem optLevelErrs_orD (o : Option String) :
    optLevelErrs (orD o (some "O3")) = optLevelErrs o := by
  unfold optLevelErrs
  rw [orD_some_getD]

theorem outputFormatErrs_orD (o : Option String) :
    outputFormatErrs (orD o (some "vmfb")) = outputFormatErrs o := by
  unfold outputFormatErrs
  rw [orD_some_getD]

theorem compOptsErrs_fill (o : RawCompilationOptions) :
    compOptsErrs (some (fillCO specDefaults.compilation_options_fields o)) =
      compOptsErrs (some o) := by
  unfold compOptsErrs
  show enumErrs ((orD o.memory_planning (some "default")).getD "default") _ _ = _
  rw [orD_some_getD]
  rfl

theorem cudaSubErrs_fill (c : RawCudaConfig) :
    cudaSubErrs (fillCuda specDefaults.cuda_fields c) = cudaSubErrs c := by
  unfold cudaSubErrs
  show (match (orD c.compute_capability (some [])).getD [] |>.find? _ with
    | some cap => _ | none => _) ++ _ = _
  rw [orD_some_getD]
  show _ = (match (c.compute_capability.getD []).find? _ with
    | some cap => _ | none => _) ++ _
  have hproj : (fillCuda specDefaults.cuda_fields c).max_threads_per_block =
      orD c.max_threads_per_block (some 256) := rfl
  rw [hproj, orD_some_getD]

theorem cpuSubErrs_fill (c : RawCpuConfig) :
    cpuSubErrs (fillCpu specDefaults.cpu_fields c) = cpuSubErrs c := by
  unfold cpuSubErrs
  show (match (orD c.vector_extensions (some [])).getD [] |>.find? _ with
    | some ext => _ | none => _) ++ _ = _
  rw [orD_some_getD]
  have hproj : (fillCpu specDefaults.cpu_fields c).num_threads =
      orD c.num_threads (some 0) := rfl
  rw [hproj, orD_some_getD]

theorem vulkanSubErrs_fill (c : RawVulkanConfig) :
    vulkanSubErrs (fillVulkan specDefaults.vulkan_fields c) = vulkanSubErrs c := by
  unfold vulkanSubErrs
  show enumErrs ((orD c.spirv_version (some "1.3")).getD "1.3") _ _ ++
    enumErrs ((orD c.vulkan_version (some "1.1")).getD "1.1") _ _ = _
  rw [orD_some_getD, orD_some_getD]

theorem metalSubErrs_fill (c : RawMetalConfig) :
    metalSubErrs (fillMetal specDefaults.metal_fields c) = metalSubErrs c := by
  unfold metalSubErrs
  show enumErrs ((orD c.metal_version (some "2.4")).getD "2.4") _ _ = _
  rw [orD_some_getD]

theorem targetSpecificErrs_fill (ts : RawTargetSpecific) :
    targetSpecificErrs (some (fillTS specDefaults ts)) = targetSpecificErrs (some ts) := by
  unfold targetSpecificErrs
  show (match (fillTS specDefaults ts).cuda with | some c => cudaSubErrs c | none => []) ++
    (match (fillTS specDefaults ts).cpu with | some c => cpuSubErrs c | none => []) ++
    (match (fillTS specDefaults ts).vulkan with | some c => vulkanSubErrs c | none => []) ++
    (match (fillTS specDefaults ts).metal with | some c => metalSubErrs c | none => []) =
    (match ts.cuda with | some c => cudaSubErrs c | none => []) ++
    (match ts.cpu with | some c => cpuSubErrs c | none => []) ++
    (match ts.vulkan with | some c => vulkanSubErrs c | none => []) ++
    (match ts.metal with | some c => metalSubErrs c | none => [])
  have h1 : (match (fillTS specDefaults ts).cuda with | some c => cudaSubErrs c | none => []) =
      (match ts.cuda with | some c => cudaSubErrs c | none => []) := by
    show (match (match ts.cuda with
      | none => specDefaults.ts_cuda
      | some c => some (fillCuda specDefaults.cuda_fields c)) with
      | some c => cudaSubErrs c | none => []) = _
    cases ts.cuda with
    | none => rfl
    | some c => exact cudaSubErrs_fill c
  have h2 : (match (fillTS specDefaults ts).cpu with | some c => cpuSubErrs c | none => []) =
      (match ts.cpu with | some c => cpuSubErrs c | none => []) := by
    show (match (match ts.cpu with
      | none => specDefaults.ts_cpu
      | some c => some (fillCpu specDefaults.cpu_fields c)) with
      | some c => cpuSubErrs c | none => []) = _
    cases ts.cpu with
    | none => rfl
    | some c => exact cpuSubErrs_fill c
  have h3 : (match (fillTS specDefaults ts).vulkan with | some c => vulkanSubErrs c | none => []) =
      (match ts.vulkan with | some c => vulkanSubErrs c | none => []) := by
    show (match (match ts.vulkan with
      | none => specDefaults.ts_vulkan
      | some c => some (fillVulkan specDefaults.vulkan_fields c)) with
      | some c => vulkanSubErrs c | none => []) = _
    cases ts.vulkan with
    | none => rfl
    | some c => exact vulkanSubErrs_fill c
  have h4 : (match (fillTS specDefaults ts).metal with | some c => metalSubErrs c | none => []) =
      (match ts.metal with | some c => metalSubErrs c | none => []) := by
    show (match (match ts.metal with
      | none => specDefaults.ts_metal
      | some c => some (fillMetal specDefaults.metal_fields c)) with
      | some c => metalSubErrs c | none => []) = _
    cases ts.metal with
    | none => rfl
    | some c => exact metalSubErrs_fill c
  rw [h1, h2, h3, h4]

theorem buildCudaM_fill (c : RawCudaConfig) :
    buildCudaM (fillCuda specDefaults.cuda_fields c) = buildCudaM c := by
  show buildCudaM ⟨orD c.compute_capability (some []), orD c.max_threads_per_block (some 256),
    orD c.use_fast_math (some false)⟩ = buildCudaM c
  unfold buildCudaM
  rw [orD_some_getD, orD_some_getD, orD_some_getD]

theorem buildCpuM_fill (c : RawCpuConfig) :
    buildCpuM (fillCpu specDefaults.cpu_fields c) = buildCpuM c := by
  show buildCpuM ⟨orD c.target_cpu (some "generic"), orD c.vector_extensions (some []),
    orD c.num_threads (some 0)⟩ = buildCpuM c
  unfold buildCpuM
  rw [orD_some_getD, orD_some_getD, orD_some_getD]

theorem buildVulkanM_fill (c : RawVulkanConfig) :
    buildVulkanM (fillVulkan specDefaults.vulkan_fields c) = buildVulkanM c := by
  show buildVulkanM ⟨orD c.spirv_version (some "1.3"), orD c.vulkan_version (some "1.1")⟩ =
    buildVulkanM c
  unfold buildVulkanM
  rw [orD_some_getD, orD_some_getD]

theorem buildMetalM_fill (c : RawMetalConfig) :
    buildMetalM (fillMetal specDefaults.metal_fields c) = buildMetalM c := by
  show buildMetalM ⟨orD c.metal_version (some "2.4"), orD c.ios_deployment_target none,
    orD c.macos_deployment_target none⟩ = buildMetalM c
  unfold buildMetalM
  rw [orD_some_getD, orD_none_right, orD_none_right]

theorem buildTS_fill (ts : RawTargetSpecific) :
    buildTS (fillTS specDefaults ts) = buildTS ts := by
  unfold buildTS
  show (⟨(match ts.cuda with
      | none => specDefaults.ts_cuda
      | some c => some (fillCuda specDefaults.cuda_fields c)).map buildCudaM,
    (match ts.cpu with
      | none => specDefaults.ts_cpu
      | some c => some (fillCpu specDefaults.cpu_fields c)).map buildCpuM,
    (match ts.vulkan with
      | none => specDefaults.ts_vulkan
      | some c => some (fillVulkan specDefaults.vulkan_fields c)).map buildVulkanM,
    (match ts.metal with
      | none => specDefaults.ts_metal
      | some c => some (fillMetal specDefaults.metal_fields c)).map buildMetalM⟩ :
    TargetSpecificM) = _
  have h1 : (match ts.cuda with
      | none => specDefaults.ts_cuda
      | some c => some (fillCuda specDefaults.cuda_fields c)).map buildCudaM =
      ts.cuda.map buildCudaM := by
    cases ts.cuda with
    | none => rfl
    | some c => simp [buildCudaM_fill]
  have h2 : (match ts.cpu with
      | none => specDefaults.ts_cpu
      | some c => some (fillCpu specDefaults.cpu_fields c)).map buildCpuM =
      ts.cpu.map buildCpuM := by
    cases ts.cpu with
    | none => rfl
    | some c => simp [buildCpuM_fill]
  have h3 : (match ts.vulkan with
      | none => specDefaults.ts_vulkan
      | some c => some (fillVulkan specDefaults.vulkan_fields c)).map buildVulkanM =
      ts.vulkan.map buildVulkanM := by
    cases ts.vulkan with
    | none => rfl
    | some c => simp [buildVulkanM_fill]
  have h4 : (match ts.metal with
      | none => specDefaults.ts_metal
      | some c => some (fillMetal specDefaults.metal_fields c)).map buildMetalM =
      ts.metal.map buildMetalM := by
    cases ts.metal with
    | none => rfl
    | some c => simp [buildMetalM_fill]
  rw [h1, h2, h3, h4]

theorem modelErr_dedup (m m2 : IreeCompilationConfigM)
    (h1 : m2.output_file = m.output_file) (h2 : m2.output_format = m.output_format)
    (h3 : m2.target = m.target) (h4 : m2.target_features = m.target_features.dedup)
    (hm : modelErr m = none) : modelErr m2 = none := by
  unfold modelErr at hm ⊢
  rw [h1, h2, h3, h4]
  by_cases hc1 : pyEndsWith m.output_file ("." ++ m.output_format) = true
  · rw [if_neg (by simp [hc1])] at hm ⊢
    by_cases hc2 : m.target = "cuda"
    · rw [if_pos hc2] at hm ⊢
      rw [Option.map_eq_none'] at hm ⊢
      rw [List.find?_eq_none] at hm ⊢
      intro x hx
      exact hm x (List.mem_dedup.mp hx)
    · rw [if_neg hc2] at hm ⊢
  · rw [if_pos (by simp [hc1])] at hm
    exact absurd hm (by simp)

theorem validate_cuda_cross_dedup (feats : List String) (c : CudaConfigM)
    (h : validate_cuda_cross_fields feats c = []) :
    validate_cuda_cross_fields feats.dedup c = [] := by
  unfold validate_cuda_cross_fields at h ⊢
  by_cases hcc : c.compute_capability.isEmpty = true
  · rw [if_neg (by simp [hcc])]
  · by_cases hft : feats.isEmpty = true
    · have hfn : feats = [] := by simpa [List.isEmpty_iff] using hft
      subst hfn
      rw [if_neg (by simp)]
    · have hfn : feats ≠ [] := by
        intro hn
        subst hn
        simp at hft
      have hdn : feats.dedup.isEmpty = false := by
        cases hd : feats.dedup with
        | nil => exact absurd ((List.dedup_eq_nil feats).mp hd) hfn
        | cons a l => rfl
      rw [if_pos (by simp [hcc, hft])] at h
      rw [if_pos (by simp [hcc, hdn])]
      rw [List.map_eq_nil_iff, List.filter_eq_nil_iff] at h ⊢
      intro cap hcap
      have h2 := h cap hcap
      simp only [Bool.not_eq_true', Bool.not_eq_false] at h2 ⊢
      rw [List.elem_iff] at h2 ⊢
      exact List.mem_dedup.mpr h2

theorem crossValidate_dedup (m m2 : IreeCompilationConfigM)
    (h3 : m2.target = m.target) (hts : m2.target_specific = m.target_specific)
    (h4 : m2.target_features = m.target_features.dedup)
    (hc : crossValidateConfig m = .ok []) : crossValidateConfig m2 = .ok [] := by
  unfold crossValidateConfig at hc ⊢
  rw [h3, hts, h4]
  by_cases hcu : m.target = "cuda"
  · rw [if_pos hcu] at hc ⊢
    cases hsub : m.target_specific.cuda with
    | none =>
      rw [hsub] at hc
      exact Except.noConfusion
        (show (Except.error "AttributeError: NoneType object has no attribute get" :
          Except String (List String)) = Except.ok [] from hc)
    | some c =>
      rw [hsub] at hc
      have hc2 : validate_cuda_cross_fields m.target_features c = [] := by
        have h0 : (Except.ok (validate_cuda_cross_fields m.target_features c) :
            Except String (List String)) = Except.ok [] := hc
        injection h0
      show (Except.ok (validate_cuda_cross_fields m.target_features.dedup c) :
        Except String (List String)) = Except.ok []
      rw [validate_cuda_cross_dedup m.target_features c hc2]
  · rw [if_neg hcu] at hc ⊢
    by_cases hvk : m.target = "vulkan"
    · rw [if_pos hvk] at hc
      rw [if_pos hvk]
      exact hc
    · rw [if_neg hvk] at hc
      rw [if_neg hvk]
      by_cases hmt : m.target = "metal"
      · rw [if_pos hmt] at hc
        rw [if_pos hmt]
        exact hc
      · rw [if_neg hmt]

/-- C7: for every request accepted by `validate_config` with no errors,
the `normalize_config` normalization (under the defaults declared by the
specification) is again accepted with no errors. -/
theorem valid_after_normalize (raw : RawConfig)
    (h : validate_config raw = .ok (true, [])) :
    validate_config (normalize_config specDefaults raw) = .ok (true, []) := by
  unfold validate_config at h
  cases hb : buildConfig raw with
  | error es =>
    rw [hb] at h
    injection h with h
    exact absurd (congrArg Prod.fst h) (by simp)
  | ok m =>
    rw [hb] at h
    have h2 : (match crossValidateConfig m with
        | Except.error e => (Except.error e : Except String (Bool × List String))
        | Except.ok errs => Except.ok (errs.isEmpty, errs)) = Except.ok (true, []) := h
    cases hcr0 : crossValidateConfig m with
    | error e => rw [hcr0] at h2; exact Except.noConfusion h2
    | ok errs =>
      rw [hcr0] at h2
      injection h2 with h2
      have herrs : errs = [] := congrArg Prod.snd h2
      subst herrs
      unfold buildConfig at hb
      by_cases hfe : fieldErrors raw = []
      · rw [if_pos hfe] at hb
        cases hme : modelErr (buildM raw) with
        | some e => rw [hme] at hb; exact Except.noConfusion hb
        | none =>
          rw [hme] at hb
          injection hb with hb
          subst hb
          simp only [fieldErrors, List.append_eq_nil] at hfe
          obtain ⟨⟨⟨⟨⟨⟨e1, e2⟩, e3⟩, e4⟩, e5⟩, e6⟩, e7⟩ := hfe
          obtain ⟨v, hv, hvs, hve⟩ := inputFileErrs_nil raw.input_file e1
          have hos := outputFileErrs_nil raw.output_file e2
          have hyin : (normalize_config specDefaults raw).input_file = some v :=
            normalize_input_file_good specDefaults raw v hv hvs
          have hyout : (normalize_config specDefaults raw).output_file =
              some (raw.output_file.getD "/output/model.vmfb") :=
            normalize_output_file_good raw hos
          have hytgt : (normalize_config specDefaults raw).target =
              orD raw.target (some "cuda") := normalize_target specDefaults raw
          have hyopt : (normalize_config specDefaults raw).optimization_level =
              orD raw.optimization_level (some "O3") := normalize_opt_level specDefaults raw
          have hyfmt : (normalize_config specDefaults raw).output_format =
              orD raw.output_format (some "vmfb") := normalize_output_format specDefaults raw
          have f1 : inputFileErrs (normalize_config specDefaults raw).input_file = [] := by
            rw [hyin]
            show (if (pyStartsWith v "/input/" && pyEndsWith v ".mlir") = true then ([] : List String)
              else ["Validation error at input_file: Input file must be in /input/ directory and have .mlir extension"]) = []
            rw [if_pos (by rw [hvs, hve]; rfl)]
          have f2 : outputFileErrs (normalize_config specDefaults raw).output_file = [] := by
            rw [hyout]
            unfold outputFileErrs
            rw [show ((some (raw.output_file.getD "/output/model.vmfb")).getD
              "/output/model.vmfb") = raw.output_file.getD "/output/model.vmfb" from rfl]
            rw [if_pos hos]
          have f3 : targetErrs (normalize_config specDefaults raw).target = [] := by
            rw [hytgt, targetErrs_orD]
            exact e3
          have f4 : optLevelErrs (normalize_config specDefaults raw).optimization_level = [] := by
            rw [hyopt, optLevelErrs_orD]
            exact e4
          have f5 : outputFormatErrs (normalize_config specDefaults raw).output_format = [] := by
            rw [hyfmt, outputFormatErrs_orD]
            exact e5
          have f6 : compOptsErrs (normalize_config specDefaults raw).compilation_options = [] := by
            rw [normalize_compilation_options]
            cases hrco : raw.compilation_options with
            | none => rfl
            | some o =>
              show compOptsErrs (some (fillCO specDefaults.compilation_options_fields o)) = []
              rw [compOptsErrs_fill]
              rw [hrco] at e6
              exact e6
          have f7 : targetSpecificErrs (normalize_config specDefaults raw).target_specific = [] := by
            rw [normalize_target_specific]
            cases hrts : raw.target_specific with
            | none => rfl
            | some ts =>
              show targetSpecificErrs (some (fillTS specDefaults ts)) = []
              rw [targetSpecificErrs_fill]
              rw [hrts] at e7
              exact e7
          have hfey : fieldErrors (normalize_config specDefaults raw) = [] := by
            unfold fieldErrors
            rw [f1, f2, f3, f4, f5, f6, f7]
            rfl
          have hbm_of : (buildM (normalize_config specDefaults raw)).output_file =
              (buildM raw).output_file := by
            show (normalize_config specDefaults raw).output_file.getD "/output/model.vmfb" =
              raw.output_file.getD "/output/model.vmfb"
            rw [hyout]
            rfl
          have hbm_fmt : (buildM (normalize_config specDefaults raw)).output_format =
              (buildM raw).output_format := by
            show (normalize_config specDefaults raw).output_format.getD "vmfb" =
              raw.output_format.getD "vmfb"
            rw [hyfmt]
            exact orD_some_getD _ _
          have hbm_tgt : (buildM (normalize_config specDefaults raw)).target =
              (buildM raw).target := by
            show (normalize_config specDefaults raw).target.getD "cuda" = raw.target.getD "cuda"
            rw [hytgt]
            exact orD_some_getD _ _
          have hbm_tf : (buildM (normalize_config specDefaults raw)).target_features =
              (buildM raw).target_features.dedup := by
            show (normalize_config specDefaults raw).target_features.getD [] =
              (raw.target_features.getD []).dedup
            rw [normalize_target_features]
            cases hrtf : raw.target_features <;> rfl
          have hbm_ts : (buildM (normalize_config specDefaults raw)).target_specific =
              (buildM raw).target_specific := by
            show buildTS ((normalize_config specDefaults raw).target_specific.getD
                emptyRawTargetSpecific) =
              buildTS (raw.target_specific.getD emptyRawTargetSpecific)
            rw [normalize_target_specific]
            cases hrts : raw.target_specific with
            | none => rfl
            | some ts =>
              show buildTS (fillTS specDefaults ts) = buildTS ts
              exact buildTS_fill ts
          have hmey : modelErr (buildM (normalize_config specDefaults raw)) = none :=
            modelErr_dedup (buildM raw) _ hbm_of hbm_fmt hbm_tgt hbm_tf hme
          have hcry : crossValidateConfig (buildM (normalize_config specDefaults raw)) =
              .ok [] :=
            crossValidate_dedup (buildM raw) _ hbm_tgt hbm_ts hbm_tf hcr0
          have hby : buildConfig (normalize_config specDefaults raw) =
              .ok (buildM (normalize_config specDefaults raw)) := by
            unfold buildConfig
            rw [if_pos hfey, hmey]
          unfold validate_config
          rw [hby]
          show (match crossValidateConfig (buildM (normalize_config specDefaults raw)) with
            | Except.error e => (Except.error e : Except String (Bool × List String))
            | Except.ok errs => Except.ok (errs.isEmpty, errs)) = Except.ok (true, [])
          rw [hcry]
          rfl
      · rw [if_neg hfe] at hb
        exact Except.noConfusion hb

/-- Witness for C7: a valid cuda request whose normalization revalidates. -/
theorem valid_after_normalize_witness :
    validate_config (rawCudaFamily ["sm_80"] ["sm_80"] 256) = .ok (true, []) ∧
    validate_config (normalize_config specDefaults (rawCudaFamily ["sm_80"] ["sm_80"] 256)) =
      .ok (true, []) :=
  ⟨by rfl, valid_after_normalize (rawCudaFamily ["sm_80"] ["sm_80"] 256) (by rfl)⟩

end IreeDocker
